import Mathlib

set_option linter.unusedVariables false

/-! Shallow embedding of the environment-update derivation and observation-model
factory layer of the Tudat simulation setup excerpt
(`Tudat/SimulationSetup/PropagationSetup/createEnvironmentUpdater.cpp` and
`Tudat/SimulationSetup/EstimationSetup/createObservationModel.h`).

Modelling conventions:
* a C++ `boost::shared_ptr` is an `Option`; a `NULL` pointer is `none`;
* a function that may `throw std::runtime_error` returns in `Except TudatError`;
* dereferencing a null pointer (undefined behaviour in the C++ source) is the
  distinguished error `TudatError.nullPointerDereference`;
* `std::map::at` on an absent key throws `std::out_of_range`, modelled as
  `TudatError.outOfRange`;
* `std::cerr` output is collected in a `List String` result component where the
  source writes to it;
* a `std::map` is an association list whose well-formedness (strictly sorted
  keys) is assumed where it matters and irrelevant elsewhere;
* `double` scalars that are only stored or compared, never computed with, are
  modelled as `Rat`. -/

namespace Tudat

/-- Error kinds of the factory layer (spec section 7), together with the two
implementation-level failure modes visible in the C++ excerpt: `outOfRange`
for `std::map::at` on an absent key, and `nullPointerDereference` for the
undefined behaviour of following a null `shared_ptr`. -/
inductive TudatError where
  | invalidSettings (msg : String)
  | invalidLinkEndTopology (msg : String)
  | dimensionMismatch (msg : String)
  | missingEnvironmentModel (msg : String)
  | unrecognizedType (msg : String)
  | unsupported (msg : String)
  | outOfRange (msg : String)
  | nullPointerDereference
  deriving DecidableEq

/-- Kind of gravity-field model attached to a body.  A dynamic cast to
`SphericalHarmonicsGravityField` succeeds for both spherical-harmonic kinds,
while a cast to `TimeDependentSphericalHarmonicsGravityField` succeeds only
for the time-dependent kind. -/
inductive GravityFieldKind where
  | central
  | sphericalHarmonic
  | timeDependentSphericalHarmonic
  deriving DecidableEq

/-- One body of the environment (`simulation_setup::Body`), reduced to the
facade the excerpt queries.  Members that the excerpt only compares against
`NULL` are presence flags; the gravity field keeps its kind so the dynamic
casts of the source can be evaluated; the radiation-pressure interface map
keeps its source-name keys so the number of interfaces is observable. -/
structure Body where
  ephemeris : Bool := false
  rotationalEphemeris : Bool := false
  dependentOrientationCalculator : Bool := false
  gravityFieldModel : Option GravityFieldKind := none
  flightConditions : Bool := false
  radiationPressureInterfaces : List String := []
  bodyMassFunction : Bool := false
  deriving DecidableEq

/-- The environment (`simulation_setup::NamedBodyMap`), a `std::map` from body
name to body object, as an association list in key order. -/
abbrev NamedBodyMap := List (String × Body)

/-- Lookup of a body by name (`bodyMap.at( name )` after a successful
`bodyMap.count( name )` check). -/
def NamedBodyMap.lookup (bodyMap : NamedBodyMap) (name : String) : Option Body :=
  match bodyMap.find? (fun p => p.1 == name) with
  | some p => some p.2
  | none => none

/-- Modelled from the spec: the enum `EnvironmentModelsToUpdate` is declared in
a header (`environmentUpdateTypes.h`) that is not part of the excerpt.  The
spec (section 3) defines a closed set of exactly six environment facets:
translational state, rotational state, spherical-harmonic gravity field,
flight conditions, radiation-pressure interface, body mass.  Consequently both
identifiers `body_translational_state_update` and
`body_transational_state_update` that appear in the source denote the one
translational-state facet. -/
inductive EnvironmentModelsToUpdate where
  | body_translational_state_update
  | body_rotational_state_update
  | spherical_harmonic_gravity_field_update
  | vehicle_flight_conditions_update
  | radiation_pressure_interface_update
  | body_mass_update
  deriving DecidableEq

/-- Modelled from the spec: the alternative spelling used by
`createTranslationalEquationsOfMotionEnvironmentUpdaterSettings` and by the
switch of `checkValidityOfRequiredEnvironmentUpdates` for the single
translational-state facet of the spec's closed six-facet enum. -/
def body_transational_state_update : EnvironmentModelsToUpdate :=
  EnvironmentModelsToUpdate.body_translational_state_update

/-- A requested-updates map
`std::map< EnvironmentModelsToUpdate, std::vector< std::string > >`: one
body-name list per facet.  An absent key of the C++ map is the empty list; no
function of the excerpt distinguishes an absent key from a present key holding
an empty vector. -/
structure EnvironmentUpdateMap where
  translationalStateBodies : List String := []
  rotationalStateBodies : List String := []
  sphericalHarmonicGravityFieldBodies : List String := []
  flightConditionsBodies : List String := []
  radiationPressureBodies : List String := []
  massBodies : List String := []
  deriving DecidableEq

/-- Body list held for one facet. -/
def EnvironmentUpdateMap.get (m : EnvironmentUpdateMap) :
    EnvironmentModelsToUpdate → List String
  | .body_translational_state_update => m.translationalStateBodies
  | .body_rotational_state_update => m.rotationalStateBodies
  | .spherical_harmonic_gravity_field_update => m.sphericalHarmonicGravityFieldBodies
  | .vehicle_flight_conditions_update => m.flightConditionsBodies
  | .radiation_pressure_interface_update => m.radiationPressureBodies
  | .body_mass_update => m.massBodies

/-- Replace the body list held for one facet. -/
def EnvironmentUpdateMap.set (m : EnvironmentUpdateMap)
    (facet : EnvironmentModelsToUpdate) (bodies : List String) :
    EnvironmentUpdateMap :=
  match facet with
  | .body_translational_state_update => { m with translationalStateBodies := bodies }
  | .body_rotational_state_update => { m with rotationalStateBodies := bodies }
  | .spherical_harmonic_gravity_field_update => { m with sphericalHarmonicGravityFieldBodies := bodies }
  | .vehicle_flight_conditions_update => { m with flightConditionsBodies := bodies }
  | .radiation_pressure_interface_update => { m with radiationPressureBodies := bodies }
  | .body_mass_update => { m with massBodies := bodies }

/-- The C++ idiom `map[ facet ].push_back( name )`. -/
def EnvironmentUpdateMap.push (m : EnvironmentUpdateMap)
    (facet : EnvironmentModelsToUpdate) (name : String) : EnvironmentUpdateMap :=
  m.set facet (m.get facet ++ [name])

/-- The six facets in a fixed iteration order, standing for the key order in
which a facet-keyed `std::map` is traversed.  Every theorem below depends only
on which entries exist, never on which of several failing entries is reported
first, so the exact order is immaterial. -/
def facetIterationOrder : List EnvironmentModelsToUpdate :=
  [ .body_translational_state_update,
    .body_rotational_state_update,
    .spherical_harmonic_gravity_field_update,
    .vehicle_flight_conditions_update,
    .radiation_pressure_interface_update,
    .body_mass_update ]

/-- Presence check of the sub-model a facet requires on a body: the switch
body of `checkValidityOfRequiredEnvironmentUpdates` (createEnvironmentUpdater.cpp,
lines 50-122).  Translational state needs an ephemeris; rotational state needs
a rotational ephemeris or a dependent orientation calculator; the gravity-field
facet needs a gravity field that casts to `SphericalHarmonicsGravityField`;
flight conditions must be set; at least one radiation-pressure interface must
exist; the body-mass facet needs a body-mass function. -/
def facetSubmodelPresent (facet : EnvironmentModelsToUpdate) (body : Body) : Bool :=
  match facet with
  | .body_translational_state_update => body.ephemeris
  | .body_rotational_state_update =>
      body.rotationalEphemeris || body.dependentOrientationCalculator
  | .spherical_harmonic_gravity_field_update =>
      match body.gravityFieldModel with
      | some GravityFieldKind.sphericalHarmonic => true
      | some GravityFieldKind.timeDependentSphericalHarmonic => true
      | _ => false
  | .vehicle_flight_conditions_update => body.flightConditions
  | .radiation_pressure_interface_update =>
      body.radiationPressureInterfaces.length != 0
  | .body_mass_update => body.bodyMassFunction

/-- Decision of whether one (facet, body-name) entry makes
`checkValidityOfRequiredEnvironmentUpdates` throw: an empty name is a global
requirement and is skipped; otherwise the body must exist and must carry the
facet's sub-model. -/
def updateEntryFails (bodyMap : NamedBodyMap)
    (facet : EnvironmentModelsToUpdate) (name : String) : Bool :=
  name != "" &&
    (match bodyMap.lookup name with
     | none => true
     | some body => !facetSubmodelPresent facet body)

/-- Validation of a single (facet, body-name) entry, throwing
`MissingEnvironmentModel` errors exactly as the source does. -/
def checkSingleEnvironmentUpdate (bodyMap : NamedBodyMap)
    (facet : EnvironmentModelsToUpdate) (name : String) : Except TudatError Unit :=
  if name = "" then .ok ()
  else
    match bodyMap.lookup name with
    | none => .error (.missingEnvironmentModel ("could not find body " ++ name))
    | some body =>
        if facetSubmodelPresent facet body then .ok ()
        else .error (.missingEnvironmentModel
          ("could not find required environment model of body " ++ name))

/-- Inner loop of `checkValidityOfRequiredEnvironmentUpdates` over the bodies
requested for one facet. -/
def checkBodiesForFacet (bodyMap : NamedBodyMap)
    (facet : EnvironmentModelsToUpdate) : List String → Except TudatError Unit
  | [] => .ok ()
  | name :: rest =>
      match checkSingleEnvironmentUpdate bodyMap facet name with
      | .error e => .error e
      | .ok _ => checkBodiesForFacet bodyMap facet rest

/-- Outer loop of `checkValidityOfRequiredEnvironmentUpdates` over the facet
entries of the requested-updates map. -/
def checkFacets (requestedUpdates : EnvironmentUpdateMap) (bodyMap : NamedBodyMap) :
    List EnvironmentModelsToUpdate → Except TudatError Unit
  | [] => .ok ()
  | facet :: rest =>
      match checkBodiesForFacet bodyMap facet (requestedUpdates.get facet) with
      | .error e => .error e
      | .ok _ => checkFacets requestedUpdates bodyMap rest

/-- Function to check whether the requested environment updates are possible
with the existing environment (createEnvironmentUpdater.cpp, lines 23-126).
The C++ function returns `void` and mutates nothing, so success carries no
data. -/
def checkValidityOfRequiredEnvironmentUpdates
    (requestedUpdates : EnvironmentUpdateMap) (bodyMap : NamedBodyMap) :
    Except TudatError Unit :=
  checkFacets requestedUpdates bodyMap facetIterationOrder

/-- Modelled from the spec: the enum `IntegratedStateType` is declared outside
the excerpt.  The spec (section 4.6) names the translational, rotational, mass
and custom propagated-state kinds and requires any other kind to fail; since a
C++ enum is integral, the type is modelled as `Nat` with four distinguished
tags, and any other value is an unknown kind. -/
def translational_state : Nat := 0

/-- Modelled from the spec: rotational propagated-state kind tag. -/
def rotational_state : Nat := 1

/-- Modelled from the spec: mass propagated-state kind tag. -/
def body_mass_state : Nat := 2

/-- Modelled from the spec: custom propagated-state kind tag (a deliberate
no-op in the pruning function). -/
def custom_state : Nat := 3

/-- List of propagated states
(`std::map< IntegratedStateType, std::vector< std::pair< std::string, std::string > > >`):
per state kind, the propagated (body, reference) name pairs. -/
abbrev IntegratedStateList := List (Nat × List (String × String))

/-- Switch body of `removePropagatedStatesFomEnvironmentUpdates`
(createEnvironmentUpdater.cpp, lines 139-194) for one propagated body of one
state kind: erase the first matching body name from the corresponding facet's
list (`std::find` + `erase`), do nothing for the custom kind, and throw for an
unrecognized kind. -/
def removePropagatedStateSingle (m : EnvironmentUpdateMap) (stateType : Nat)
    (propagatedBody : String × String) : Except TudatError EnvironmentUpdateMap :=
  if stateType = translational_state then
    .ok (m.set .body_translational_state_update
      ((m.get .body_translational_state_update).erase propagatedBody.1))
  else if stateType = rotational_state then
    .ok (m.set .body_rotational_state_update
      ((m.get .body_rotational_state_update).erase propagatedBody.1))
  else if stateType = body_mass_state then
    .ok (m.set .body_mass_update ((m.get .body_mass_update).erase propagatedBody.1))
  else if stateType = custom_state then
    .ok m
  else
    .error (.unrecognizedType
      "state type not recognized when removing propagated states from environment updates")

/-- Inner loop of `removePropagatedStatesFomEnvironmentUpdates` over the bodies
propagated with one state kind. -/
def removePropagatedStateBodies (stateType : Nat) :
    List (String × String) → EnvironmentUpdateMap → Except TudatError EnvironmentUpdateMap
  | [], m => .ok m
  | propagatedBody :: rest, m =>
      match removePropagatedStateSingle m stateType propagatedBody with
      | .error e => .error e
      | .ok m2 => removePropagatedStateBodies stateType rest m2

/-- Function that removes propagated states from the updated environment
variables (createEnvironmentUpdater.cpp, lines 129-197; the typo in the name is
the source's).  The C++ function mutates its map argument in place; here the
pruned map is returned. -/
def removePropagatedStatesFomEnvironmentUpdates
    (environmentModelsToUpdate : EnvironmentUpdateMap)
    (integratedStateList : IntegratedStateList) : Except TudatError EnvironmentUpdateMap :=
  match integratedStateList with
  | [] => .ok environmentModelsToUpdate
  | entry :: rest =>
      match removePropagatedStateBodies entry.1 entry.2 environmentModelsToUpdate with
      | .error e => .error e
      | .ok m2 => removePropagatedStatesFomEnvironmentUpdates m2 rest

/-- Modelled from the spec: `addEnvironmentUpdates` (the combinator `merge` of
spec section 4.6) is defined in `environmentUpdateTypes.cpp`, which is not
part of the excerpt.  Per the spec it appends, for every facet, the body list
of `updatesToAdd` to the list of `environmentUpdateList` (creating the entry
if absent), never removes entries, keeps the order of the appended names, and
does not remove duplicates (spec sections 4.6 and 9). -/
def addEnvironmentUpdates (environmentUpdateList updatesToAdd : EnvironmentUpdateMap) :
    EnvironmentUpdateMap where
  translationalStateBodies :=
    environmentUpdateList.translationalStateBodies ++ updatesToAdd.translationalStateBodies
  rotationalStateBodies :=
    environmentUpdateList.rotationalStateBodies ++ updatesToAdd.rotationalStateBodies
  sphericalHarmonicGravityFieldBodies :=
    environmentUpdateList.sphericalHarmonicGravityFieldBodies ++
      updatesToAdd.sphericalHarmonicGravityFieldBodies
  flightConditionsBodies :=
    environmentUpdateList.flightConditionsBodies ++ updatesToAdd.flightConditionsBodies
  radiationPressureBodies :=
    environmentUpdateList.radiationPressureBodies ++ updatesToAdd.radiationPressureBodies
  massBodies := environmentUpdateList.massBodies ++ updatesToAdd.massBodies

/-- A torque model, identified by the tag `getTorqueModelType` reads off it.
An `unrecognizedTorque` value stands for a torque model whose kind falls
outside the closed set known to the resolver. -/
inductive TorqueModel where
  | secondOrderGravitationalTorque
  | aerodynamicTorque
  | unrecognizedTorque (tag : Nat)
  deriving DecidableEq

/-- A `basic_astrodynamics::TorqueModelMap`: per torqued body, per exerting
body, the list of torque models. -/
abbrev TorqueModelMap := List (String × List (String × List TorqueModel))

/-- Per-model switch of
`createRotationalEquationsOfMotionEnvironmentUpdaterSettings`
(createEnvironmentUpdater.cpp, lines 218-237): a second-order gravitational
torque needs nothing; an aerodynamic torque needs the rotational state of the
exerting body and the flight conditions of the torqued body; any other kind
only writes an error line to `std::cerr` (collected in the second component)
and continues. -/
def singleTorqueUpdateNeedsAux (acceleratedBody exertingBody : String) :
    List TorqueModel → EnvironmentUpdateMap × List String →
    EnvironmentUpdateMap × List String
  | [], acc => acc
  | torque :: rest, acc =>
      let acc2 :=
        match torque with
        | .secondOrderGravitationalTorque => acc
        | .aerodynamicTorque =>
            (((acc.1.push .body_rotational_state_update exertingBody).push
                .vehicle_flight_conditions_update acceleratedBody), acc.2)
        | .unrecognizedTorque _ =>
            (acc.1, acc.2 ++ ["Error, update information not found for torque model"])
      singleTorqueUpdateNeedsAux acceleratedBody exertingBody rest acc2

/-- Needs of one (torqued body, exerting body) pair, accumulated over its
torque models in loop order. -/
def singleTorqueUpdateNeeds (acceleratedBody exertingBody : String)
    (torques : List TorqueModel) : EnvironmentUpdateMap × List String :=
  singleTorqueUpdateNeedsAux acceleratedBody exertingBody torques ({}, [])

/-- Loop of the torque resolver over the exerting bodies of one torqued body:
build the per-pair needs, validate them, and merge them into the total. -/
def rotationalUpdaterExertingLoop (bodyMap : NamedBodyMap) (acceleratedBody : String) :
    List (String × List TorqueModel) → EnvironmentUpdateMap × List String →
    Except TudatError (EnvironmentUpdateMap × List String)
  | [], acc => .ok acc
  | torqueEntry :: rest, acc =>
      let needs := singleTorqueUpdateNeeds acceleratedBody torqueEntry.1 torqueEntry.2
      match checkValidityOfRequiredEnvironmentUpdates needs.1 bodyMap with
      | .error e => .error e
      | .ok _ =>
          rotationalUpdaterExertingLoop bodyMap acceleratedBody rest
            (addEnvironmentUpdates acc.1 needs.1, acc.2 ++ needs.2)

/-- Outer loop of the torque resolver over the torqued bodies. -/
def rotationalUpdaterBodyLoop (bodyMap : NamedBodyMap) :
    TorqueModelMap → EnvironmentUpdateMap × List String →
    Except TudatError (EnvironmentUpdateMap × List String)
  | [], acc => .ok acc
  | acceleratedEntry :: rest, acc =>
      match rotationalUpdaterExertingLoop bodyMap acceleratedEntry.1 acceleratedEntry.2 acc with
      | .error e => .error e
      | .ok acc2 => rotationalUpdaterBodyLoop bodyMap rest acc2

/-- Get list of required environment model update settings from torque models
(createEnvironmentUpdater.cpp, lines 200-245).  The second result component
collects the `std::cerr` lines the function writes for unrecognized torque
kinds; note that the source does not throw for them. -/
def createRotationalEquationsOfMotionEnvironmentUpdaterSettings
    (torqueModels : TorqueModelMap) (bodyMap : NamedBodyMap) :
    Except TudatError (EnvironmentUpdateMap × List String) :=
  rotationalUpdaterBodyLoop bodyMap torqueModels ({}, [])

/-- A translational acceleration model, identified by the tag
`getAccelerationModelType` reads off it, together with the payload each branch
of the resolver extracts through its dynamic cast.  An
`unrecognizedAcceleration` value stands for a kind outside the closed set. -/
inductive AccelerationModel where
  | centralGravity
  | thirdBodyCentralGravity (centralBodyName : String)
  | aerodynamicAcceleration
  | cannonBallRadiationPressure
  | sphericalHarmonicGravity
  | mutualSphericalHarmonicGravity
  | thirdBodySphericalHarmonicGravity (centralBodyName : String)
  | thirdBodyMutualSphericalHarmonicGravity (centralBodyName : String)
  | thrustAcceleration (requiredModelUpdates : EnvironmentUpdateMap)
  | relativisticCorrection (calculateDeSitterCorrection : Bool) (primaryBodyName : String)
  | directTidalDissipation
  | empiricalAcceleration
  | unrecognizedAcceleration (tag : Nat)
  deriving DecidableEq

/-- A `basic_astrodynamics::AccelerationMap`: per accelerated body, per
exerting body, the list of acceleration models. -/
abbrev AccelerationMap := List (String × List (String × List AccelerationModel))

/-- Key-presence test `translationalAccelerationModels.count( name )` on the
outer acceleration map. -/
def accelerationMapHasKey (accelerationModels : AccelerationMap) (name : String) : Bool :=
  accelerationModels.any (fun p => p.1 == name)

/-- Per-model body of
`createTranslationalEquationsOfMotionEnvironmentUpdaterSettings`
(createEnvironmentUpdater.cpp, lines 275-446): first the translational state of
the exerting body is requested when that body is not itself accelerated (under
the facet key spelled `body_transational_state_update` in the source), then
the switch on the acceleration kind adds its facets. -/
def singleAccelerationUpdate (accelerationModels : AccelerationMap)
    (acceleratedBody exertingBody : String) (model : AccelerationModel)
    (m0 : EnvironmentUpdateMap) : Except TudatError EnvironmentUpdateMap :=
  let m := if accelerationMapHasKey accelerationModels exertingBody then m0
           else m0.push body_transational_state_update exertingBody
  match model with
  | .centralGravity => .ok m
  | .thirdBodyCentralGravity centralBodyName =>
      if !accelerationMapHasKey accelerationModels centralBodyName then
        .ok (m.push body_transational_state_update centralBodyName)
      else .ok m
  | .aerodynamicAcceleration =>
      .ok (((m.push .body_rotational_state_update exertingBody).push
        .vehicle_flight_conditions_update acceleratedBody).push
        .body_mass_update acceleratedBody)
  | .cannonBallRadiationPressure =>
      .ok ((m.push .radiation_pressure_interface_update acceleratedBody).push
        .body_mass_update acceleratedBody)
  | .sphericalHarmonicGravity =>
      .ok ((m.push .body_rotational_state_update exertingBody).push
        .spherical_harmonic_gravity_field_update exertingBody)
  | .mutualSphericalHarmonicGravity =>
      .ok ((((m.push .body_rotational_state_update exertingBody).push
        .spherical_harmonic_gravity_field_update exertingBody).push
        .body_rotational_state_update acceleratedBody).push
        .spherical_harmonic_gravity_field_update acceleratedBody)
  | .thirdBodySphericalHarmonicGravity centralBodyName =>
      let m2 := (m.push .body_rotational_state_update exertingBody).push
        .spherical_harmonic_gravity_field_update exertingBody
      if !accelerationMapHasKey accelerationModels centralBodyName then
        .ok (m2.push body_transational_state_update centralBodyName)
      else .ok m2
  | .thirdBodyMutualSphericalHarmonicGravity centralBodyName =>
      let m2 := (((m.push .body_rotational_state_update exertingBody).push
        .spherical_harmonic_gravity_field_update exertingBody).push
        .body_rotational_state_update acceleratedBody).push
        .spherical_harmonic_gravity_field_update acceleratedBody
      if !accelerationMapHasKey accelerationModels centralBodyName then
        .ok (((m2.push body_transational_state_update centralBodyName).push
          .body_rotational_state_update centralBodyName).push
          .spherical_harmonic_gravity_field_update centralBodyName)
      else .ok m2
  | .thrustAcceleration requiredModelUpdates =>
      .ok ((addEnvironmentUpdates m requiredModelUpdates).push
        .body_mass_update acceleratedBody)
  | .relativisticCorrection calculateDeSitterCorrection primaryBodyName =>
      if calculateDeSitterCorrection &&
          !accelerationMapHasKey accelerationModels primaryBodyName then
        .ok (m.push body_transational_state_update primaryBodyName)
      else .ok m
  | .directTidalDissipation =>
      .ok ((m.push .body_rotational_state_update exertingBody).push
        .spherical_harmonic_gravity_field_update exertingBody)
  | .empiricalAcceleration => .ok m
  | .unrecognizedAcceleration _ =>
      .error (.unrecognizedType
        "acceleration model update needs, model type not recognized")

/-- Loop over the models one exerting body applies to one accelerated body. -/
def singleAccelerationModelLoop (accelerationModels : AccelerationMap)
    (acceleratedBody exertingBody : String) :
    List AccelerationModel → EnvironmentUpdateMap → Except TudatError EnvironmentUpdateMap
  | [], m => .ok m
  | model :: rest, m =>
      match singleAccelerationUpdate accelerationModels acceleratedBody exertingBody model m with
      | .error e => .error e
      | .ok m2 => singleAccelerationModelLoop accelerationModels acceleratedBody exertingBody rest m2

/-- Loop of the translational resolver over the exerting bodies of one
accelerated body: build the per-pair needs, validate them, and merge them. -/
def translationalUpdaterExertingLoop (accelerationModels : AccelerationMap)
    (bodyMap : NamedBodyMap) (acceleratedBody : String) :
    List (String × List AccelerationModel) → EnvironmentUpdateMap →
    Except TudatError EnvironmentUpdateMap
  | [], total => .ok total
  | modelEntry :: rest, total =>
      match singleAccelerationModelLoop accelerationModels acceleratedBody modelEntry.1
          modelEntry.2 {} with
      | .error e => .error e
      | .ok needs =>
          match checkValidityOfRequiredEnvironmentUpdates needs bodyMap with
          | .error e => .error e
          | .ok _ =>
              translationalUpdaterExertingLoop accelerationModels bodyMap acceleratedBody rest
                (addEnvironmentUpdates total needs)

/-- Outer loop of the translational resolver over the accelerated bodies. -/
def translationalUpdaterBodyLoop (accelerationModels : AccelerationMap)
    (bodyMap : NamedBodyMap) :
    AccelerationMap → EnvironmentUpdateMap → Except TudatError EnvironmentUpdateMap
  | [], total => .ok total
  | acceleratedEntry :: rest, total =>
      match translationalUpdaterExertingLoop accelerationModels bodyMap acceleratedEntry.1
          acceleratedEntry.2 total with
      | .error e => .error e
      | .ok total2 => translationalUpdaterBodyLoop accelerationModels bodyMap rest total2

/-- Get list of required environment model update settings from translational
acceleration models (createEnvironmentUpdater.cpp, lines 249-460). -/
def createTranslationalEquationsOfMotionEnvironmentUpdaterSettings
    (translationalAccelerationModels : AccelerationMap) (bodyMap : NamedBodyMap) :
    Except TudatError EnvironmentUpdateMap :=
  translationalUpdaterBodyLoop translationalAccelerationModels bodyMap
    translationalAccelerationModels {}

/-- Per-body needs of the brute-force builder (createEnvironmentUpdater.cpp,
lines 811-855): flight conditions if set; one radiation-pressure entry pushed
per radiation-pressure interface; rotational state if a rotational ephemeris
or dependent orientation calculator is present; the gravity-field facet if the
gravity field casts to `TimeDependentSphericalHarmonicsGravityField`; and the
mass facet unconditionally. -/
def fullSingleBodyUpdateNeeds (name : String) (body : Body) : EnvironmentUpdateMap where
  translationalStateBodies := []
  rotationalStateBodies :=
    if body.rotationalEphemeris || body.dependentOrientationCalculator then [name] else []
  sphericalHarmonicGravityFieldBodies :=
    if body.gravityFieldModel = some GravityFieldKind.timeDependentSphericalHarmonic
    then [name] else []
  flightConditionsBodies := if body.flightConditions then [name] else []
  radiationPressureBodies := body.radiationPressureInterfaces.map (fun _ => name)
  massBodies := [name]

/-- Loop of the brute-force builder over the bodies of the environment. -/
def createFullEnvironmentUpdaterSettingsAux (bodyMap : NamedBodyMap) :
    List (String × Body) → EnvironmentUpdateMap → Except TudatError EnvironmentUpdateMap
  | [], total => .ok total
  | entry :: rest, total =>
      let needs := fullSingleBodyUpdateNeeds entry.1 entry.2
      match checkValidityOfRequiredEnvironmentUpdates needs bodyMap with
      | .error e => .error e
      | .ok _ =>
          createFullEnvironmentUpdaterSettingsAux bodyMap rest
            (addEnvironmentUpdates total needs)

/-- Function to create 'brute-force' update settings, in which each
environment model is updated (createEnvironmentUpdater.cpp, lines 792-864). -/
def createFullEnvironmentUpdaterSettings (bodyMap : NamedBodyMap) :
    Except TudatError EnvironmentUpdateMap :=
  createFullEnvironmentUpdaterSettingsAux bodyMap bodyMap {}

/-! Observation-model factory (createObservationModel.h). -/

/-- Modelled from the spec: the enum `LinkEndType` is declared in
`linkTypeDefs.h`, which is not part of the excerpt.  The spec fixes an ordered
role set (section 3) whose ordinals support the predecessor arithmetic of the
n-way chain validation (section 9, ordinal minus one) and whose key order
makes the sorted link-ends map read transmitter, reflectors, receiver in chain
order (section 4.3).  Since a C++ enum is integral, the type is `Nat` with the
named role tags below. -/
abbrev LinkEndType := Nat

/-- Modelled from the spec: the transmitter role tag, first of the chain. -/
def transmitter : LinkEndType := 0

/-- Modelled from the spec: the first retransmitter role tag. -/
def reflector1 : LinkEndType := 1

/-- Modelled from the spec: the second retransmitter role tag. -/
def reflector2 : LinkEndType := 2

/-- Modelled from the spec: the third retransmitter role tag. -/
def reflector3 : LinkEndType := 3

/-- Modelled from the spec: the fourth retransmitter role tag. -/
def reflector4 : LinkEndType := 4

/-- Modelled from the spec: the receiver role tag, last of the chain. -/
def receiver : LinkEndType := 5

/-- Modelled from the spec: the observed-body role tag of the position
observable. -/
def observed_body : LinkEndType := 6

/-- A link-end identifier: body name plus optional reference-point name
(empty when absent). -/
abbrev LinkEndId := String × String

/-- A `LinkEnds` map (`std::map< LinkEndType, LinkEndId >`), as an association
list in key order. -/
abbrev LinkEnds := List (LinkEndType × LinkEndId)

/-- Well-formedness of a link-ends association list as the image of a
`std::map`: strictly ascending keys. -/
def LinkEnds.WF (linkEnds : LinkEnds) : Prop :=
  (linkEnds.map Prod.fst).Chain' (· < ·)

/-- Key lookup on a link-ends map. -/
def LinkEnds.lookup (linkEnds : LinkEnds) (key : LinkEndType) : Option LinkEndId :=
  match linkEnds.find? (fun p => p.1 == key) with
  | some p => some p.2
  | none => none

/-- The C++ `linkEnds.count( key )` (0 or 1 on a `std::map`). -/
def LinkEnds.countKey (linkEnds : LinkEnds) (key : LinkEndType) : Nat :=
  if (linkEnds.lookup key).isSome then 1 else 0

/-- The C++ `linkEnds.at( key )`, which throws `std::out_of_range` on an
absent key. -/
def LinkEnds.atKey (linkEnds : LinkEnds) (key : LinkEndType) :
    Except TudatError LinkEndId :=
  match linkEnds.lookup key with
  | some v => .ok v
  | none => .error (.outOfRange "linkEnds key not found")

/-- The observable types dispatched on by the excerpt
(`observation_models::ObservableType`). -/
inductive ObservableType where
  | one_way_range
  | angular_position
  | position_observable
  | one_way_doppler
  | one_way_differenced_range
  | n_way_range
  | two_way_doppler
  deriving DecidableEq

/-- Settings for a single light-time correction.  The correction is opaque to
this core (spec section 3); only the identity of the settings object is kept. -/
structure LightTimeCorrectionSettings where
  tag : Nat
  deriving DecidableEq

/-- The tags of `observation_models::ObservationBiasTypes` used by the bias
factory. -/
inductive ObservationBiasTypes where
  | constant_absolute_bias
  | constant_relative_bias
  | arc_wise_constant_absolute_bias
  | arc_wise_constant_relative_bias
  | multiple_observation_biases
  deriving DecidableEq

/-- Settings for creation of an observation bias model
(`ObservationBiasSettings` and its concrete subclasses,
createObservationModel.h lines 47-175).  The `baseOnly` constructor stands for
a base-class object carrying a bias-type tag with no concrete payload, on
which every dynamic cast of the factory fails. -/
inductive ObservationBiasSettings where
  | constantBias (observationBias : List Rat) (useAbsoluteBias : Bool)
  | arcWiseBias (arcStartTimes : List Rat) (observationBiases : List (List Rat))
      (linkEndForTime : LinkEndType) (useAbsoluteBias : Bool)
  | multipleBiases (biasSettingsList : List ObservationBiasSettings)
  | baseOnly (observationBiasType : ObservationBiasTypes)

/-- The `observationBiasType_` tag of a bias-settings object, as set by the
constructors of the source classes. -/
def ObservationBiasSettings.observationBiasType :
    ObservationBiasSettings → ObservationBiasTypes
  | .constantBias _ useAbsoluteBias =>
      if useAbsoluteBias then .constant_absolute_bias else .constant_relative_bias
  | .arcWiseBias _ _ _ useAbsoluteBias =>
      if useAbsoluteBias then .arc_wise_constant_absolute_bias
      else .arc_wise_constant_relative_bias
  | .multipleBiases _ => .multiple_observation_biases
  | .baseOnly t => t

/-- A constructed runtime bias calculator (`ObservationBias< ObservationSize >`
subclasses), recording the data its constructor received.  The arc-wise
calculators record the argument triple passed to the external link-end-index
resolver `getLinkEndIndicesForLinkEndTypeAtObservable` (an external
collaborator of this core, spec section 4.1). -/
inductive ObservationBias where
  | constantBias (bias : List Rat)
  | constantRelativeBias (bias : List Rat)
  | constantArcWiseBias (arcStartTimes : List Rat) (biases : List (List Rat))
      (linkEndIndexQuery : ObservableType × LinkEndType × Nat)
  | constantRelativeArcWiseBias (arcStartTimes : List Rat) (biases : List (List Rat))
      (linkEndIndexQuery : ObservableType × LinkEndType × Nat)
  | multiTypeBias (biasList : List ObservationBias)

/-- Function to create an object that computes an observation bias
(`createObservationBiasCalculator< ObservationSize >`,
createObservationModel.h lines 584-739).  `observationSize` is the template
parameter `ObservationSize`. -/
def createObservationBiasCalculator (observationSize : Nat) (linkEnds : LinkEnds)
    (observableType : ObservableType) (biasSettings : ObservationBiasSettings)
    (bodyMap : NamedBodyMap) : Except TudatError ObservationBias :=
  match biasSettings.observationBiasType with
  | .constant_absolute_bias =>
      match biasSettings with
      | .constantBias observationBias useAbsoluteBias =>
          if !useAbsoluteBias then
            .error (.invalidSettings "constant observation bias class settings are inconsistent")
          else if observationBias.length ≠ observationSize then
            .error (.dimensionMismatch "constant observation bias size is inconsistent")
          else .ok (.constantBias observationBias)
      | _ => .error (.invalidSettings "constant observation bias settings are inconsistent")
  | .arc_wise_constant_absolute_bias =>
      match biasSettings with
      | .arcWiseBias arcStartTimes observationBiases linkEndForTime useAbsoluteBias =>
          if !useAbsoluteBias then
            .error (.invalidSettings "arc-wise observation bias class contents are inconsistent")
          else if observationBiases.any (fun b => b.length ≠ observationSize) then
            .error (.dimensionMismatch "arc-wise observation bias size is inconsistent")
          else
            .ok (.constantArcWiseBias arcStartTimes observationBiases
              (observableType, linkEndForTime, linkEnds.length))
      | _ => .error (.invalidSettings "arc-wise observation bias settings are inconsistent")
  | .constant_relative_bias =>
      match biasSettings with
      | .constantBias observationBias useAbsoluteBias =>
          if useAbsoluteBias then
            .error (.invalidSettings "constant relative observation bias class settings are inconsistent")
          else if observationBias.length ≠ observationSize then
            .error (.dimensionMismatch "constant relative observation bias size is inconsistent")
          else .ok (.constantRelativeBias observationBias)
      | _ => .error (.invalidSettings "constant relative observation bias settings are inconsistent")
  | .arc_wise_constant_relative_bias =>
      match biasSettings with
      | .arcWiseBias arcStartTimes observationBiases linkEndForTime useAbsoluteBias =>
          if useAbsoluteBias then
            .error (.invalidSettings "arc-wise relative observation bias class contents are inconsistent")
          else if observationBiases.any (fun b => b.length ≠ observationSize) then
            .error (.dimensionMismatch "arc-wise observation bias size is inconsistent")
          else
            .ok (.constantRelativeArcWiseBias arcStartTimes observationBiases
              (observableType, linkEndForTime, linkEnds.length))
      | _ => .error (.invalidSettings "arc-wise relative observation bias settings are inconsistent")
  | .multiple_observation_biases =>
      match biasSettings with
      | .multipleBiases biasSettingsList => do
          let biasList ← biasSettingsList.attach.mapM
            (fun b => createObservationBiasCalculator observationSize linkEnds
              observableType b.1 bodyMap)
          .ok (.multiTypeBias biasList)
      | _ => .error (.invalidSettings "multiple observation biases settings are inconsistent")
  termination_by sizeOf biasSettings
  decreasing_by
    have hmem := List.sizeOf_lt_of_mem b.2
    simp only [ObservationBiasSettings.multipleBiases.sizeOf_spec]
    omega

/-- The C++ pattern `if( biasSettings_ != NULL ) observationBias = create...`:
a null bias-settings pointer leaves the bias calculator null. -/
def createOptionalBiasCalculator (observationSize : Nat) (linkEnds : LinkEnds)
    (observableType : ObservableType) (biasSettings : Option ObservationBiasSettings)
    (bodyMap : NamedBodyMap) : Except TudatError (Option ObservationBias) :=
  match biasSettings with
  | none => .ok none
  | some settings =>
      match createObservationBiasCalculator observationSize linkEnds observableType
          settings bodyMap with
      | .error e => .error e
      | .ok bias => .ok (some bias)

/-- Enum defining all possible types of proper time rate computations in
one-way Doppler (createObservationModel.h, lines 238-243). -/
inductive DopplerProperTimeRateType where
  | custom_doppler_proper_time_rate
  | direct_first_order_doppler_proper_time_rate
  deriving DecidableEq

/-- Settings for proper time rate at a single link end
(`DopplerProperTimeRateSettings` and its one concrete subclass,
createObservationModel.h lines 245-282).  `baseOnly` stands for a base-class
object carrying a rate-type tag with no payload, on which the dynamic cast of
the factory fails. -/
inductive DopplerProperTimeRateSettings where
  | baseOnly (dopplerProperTimeRateType : DopplerProperTimeRateType)
  | directFirstOrder (centralBodyName : String)
  deriving DecidableEq

/-- The `dopplerProperTimeRateType_` tag, as set by the source constructors. -/
def DopplerProperTimeRateSettings.dopplerProperTimeRateType :
    DopplerProperTimeRateSettings → DopplerProperTimeRateType
  | .baseOnly t => t
  | .directFirstOrder _ => .direct_first_order_doppler_proper_time_rate

/-- A constructed `DirectFirstOrderDopplerProperTimeRateInterface`, recording
the computation-point link end and central body its constructor received (the
gravitational-parameter and ephemeris accessors it also receives are opaque
reads of that central body). -/
structure DopplerProperTimeRateInterface where
  computationPointLinkEndType : LinkEndType
  centralBody : String
  deriving DecidableEq

/-- Function to create the proper time rate calculator for use in one-way
Doppler (`createOneWayDopplerProperTimeCalculator`, createObservationModel.h
lines 484-553).  The C++ parameter is a `shared_ptr` that the function
dereferences unconditionally in its first switch, so a null settings pointer
is undefined behaviour, modelled as `nullPointerDereference`.  Note the
short-circuit of line 529: the receiver link end is read (and may throw
`std::out_of_range`) before the transmitter one, and the transmitter is not
read at all when the receiver already equals the reference point. -/
def createOneWayDopplerProperTimeCalculator
    (properTimeRateSettings : Option DopplerProperTimeRateSettings)
    (linkEnds : LinkEnds) (bodyMap : NamedBodyMap)
    (linkEndForCalculator : LinkEndType) :
    Except TudatError DopplerProperTimeRateInterface :=
  match properTimeRateSettings with
  | none => .error .nullPointerDereference
  | some settings =>
      match settings.dopplerProperTimeRateType with
      | .direct_first_order_doppler_proper_time_rate =>
          match settings with
          | .baseOnly _ =>
              .error (.invalidSettings
                "input type direct_first_order_doppler_proper_time_rate is inconsistent")
          | .directFirstOrder centralBodyName =>
              if linkEnds.countKey linkEndForCalculator = 0 then
                .error (.invalidLinkEndTopology
                  "one-way Doppler proper time calculator did not find link end")
              else
                match bodyMap.lookup centralBodyName with
                | none => .error (.outOfRange "bodyMap key not found")
                | some body =>
                    if body.gravityFieldModel = none then
                      .error (.missingEnvironmentModel
                        ("no gravity field found for " ++ centralBodyName))
                    else
                      let referencePointId : LinkEndId := (centralBodyName, "")
                      match linkEnds.lookup receiver with
                      | none => .error (.outOfRange "linkEnds key not found")
                      | some receiverId =>
                          if receiverId = referencePointId then
                            .error (.unsupported
                              "proper time reference point as link end not yet implemented")
                          else
                            match linkEnds.lookup transmitter with
                            | none => .error (.outOfRange "linkEnds key not found")
                            | some transmitterId =>
                                if transmitterId = referencePointId then
                                  .error (.unsupported
                                    "proper time reference point as link end not yet implemented")
                                else
                                  .ok { computationPointLinkEndType := linkEndForCalculator,
                                        centralBody := centralBodyName }
      | .custom_doppler_proper_time_rate =>
          .error (.unrecognizedType
            "one-way Doppler proper time calculator did not recognize type")

/-- The payload a concrete `OneWayDopplerObservationSettings` object carries
(createObservationModel.h, lines 285-334); the nested uplink and downlink
settings of a `TwoWayDopplerObservationSettings` have exactly this static
type. -/
structure OneWayDopplerSettingsObj where
  lightTimeCorrectionsList : List LightTimeCorrectionSettings
  transmitterProperTimeRateSettings : Option DopplerProperTimeRateSettings
  receiverProperTimeRateSettings : Option DopplerProperTimeRateSettings
  biasSettings : Option ObservationBiasSettings

/-- Settings for an observation model that is to be created
(`ObservationSettings` and its concrete subclasses, createObservationModel.h
lines 183-473).  One constructor per concrete class; the constructor of each
subclass forces the tag, the light-time-correction list (empty for the two-way
Doppler and n-way range classes) and the payload, exactly as the C++
constructors do, while `base` objects may carry any tag.  The opaque
`boost::function` members (integration time, retransmission times) are kept as
identity tokens. -/
inductive ObservationSettings where
  | base (observableType : ObservableType)
      (lightTimeCorrectionsList : List LightTimeCorrectionSettings)
      (biasSettings : Option ObservationBiasSettings)
  | oneWayDopplerSettings (lightTimeCorrectionsList : List LightTimeCorrectionSettings)
      (transmitterProperTimeRateSettings : Option DopplerProperTimeRateSettings)
      (receiverProperTimeRateSettings : Option DopplerProperTimeRateSettings)
      (biasSettings : Option ObservationBiasSettings)
  | twoWayDopplerSettings (uplinkOneWayDopplerSettings : Option OneWayDopplerSettingsObj)
      (downlinkOneWayDopplerSettings : Option OneWayDopplerSettingsObj)
      (biasSettings : Option ObservationBiasSettings)
  | oneWayDifferencedRangeRateSettings
      (integrationTimeFunction : Nat)
      (lightTimeCorrectionsList : List LightTimeCorrectionSettings)
      (biasSettings : Option ObservationBiasSettings)
  | nWayRangeSettings (oneWayRangeObsevationSettings : List ObservationSettings)
      (retransmissionTimesFunction : Option Nat)
      (biasSettings : Option ObservationBiasSettings)

/-- The `observableType_` tag of a settings object, as set by the source
constructors. -/
def ObservationSettings.observableType : ObservationSettings → ObservableType
  | .base t _ _ => t
  | .oneWayDopplerSettings _ _ _ _ => .one_way_doppler
  | .twoWayDopplerSettings _ _ _ => .two_way_doppler
  | .oneWayDifferencedRangeRateSettings _ _ _ => .one_way_differenced_range
  | .nWayRangeSettings _ _ _ => .n_way_range

/-- The `lightTimeCorrectionsList_` member of a settings object (left empty by
the two-way Doppler and n-way range constructors). -/
def ObservationSettings.lightTimeCorrectionsList :
    ObservationSettings → List LightTimeCorrectionSettings
  | .base _ l _ => l
  | .oneWayDopplerSettings l _ _ _ => l
  | .twoWayDopplerSettings _ _ _ => []
  | .oneWayDifferencedRangeRateSettings _ l _ => l
  | .nWayRangeSettings _ _ _ => []

/-- The `biasSettings_` member of a settings object. -/
def ObservationSettings.biasSettings :
    ObservationSettings → Option ObservationBiasSettings
  | .base _ _ b => b
  | .oneWayDopplerSettings _ _ _ b => b
  | .twoWayDopplerSettings _ _ b => b
  | .oneWayDifferencedRangeRateSettings _ _ b => b
  | .nWayRangeSettings _ _ b => b

/-- Whether a settings object is of the concrete `NWayRangeObservationSettings`
type (the dynamic cast of the n-way branch succeeds). -/
def ObservationSettings.isNWayRangeConcrete : ObservationSettings → Bool
  | .nWayRangeSettings _ _ _ => true
  | _ => false

/-- A light-time calculator, an external collaborator constructed by
`createLightTimeCalculator( transmitterId, receiverId, bodyMap, corrections )`;
the model records the construction arguments (the body map is an opaque
environment read). -/
structure LightTimeCalculator where
  transmitterId : LinkEndId
  receiverId : LinkEndId
  corrections : List LightTimeCorrectionSettings

/-- A constructed observation model of size 1, one constructor per model class
the size-1 creator can instantiate, each recording its constructor
arguments. -/
inductive ObservationModel1 where
  | oneWayRange (lightTimeCalculator : LightTimeCalculator)
      (bias : Option ObservationBias)
  | oneWayDoppler (lightTimeCalculator : LightTimeCalculator)
      (transmitterProperTimeRate receiverProperTimeRate : Option DopplerProperTimeRateInterface)
      (bias : Option ObservationBias)
  | twoWayDoppler (uplinkDoppler downlinkDoppler : Option ObservationModel1)
      (bias : Option ObservationBias)
  | oneWayDifferencedRange
      (arcStartLightTimeCalculator arcEndLightTimeCalculator : LightTimeCalculator)
      (integrationTimeFunction : Nat) (bias : Option ObservationBias)
  | nWayRange (lightTimeCalculators : List LightTimeCalculator)
      (retransmissionTimesFunction : Option Nat) (bias : Option ObservationBias)

/-- The `dynamic_pointer_cast< OneWayDopplerObservationModel >` applied to the
legs of a two-way Doppler model: null unless the model is a one-way Doppler
model. -/
def castToOneWayDopplerModel (model : ObservationModel1) : Option ObservationModel1 :=
  match model with
  | .oneWayDoppler _ _ _ _ => some model
  | _ => none

/-- The `one_way_range` branch of the size-1 creator
(createObservationModel.h, lines 796-832). -/
def buildOneWayRangeModelSize1 (linkEnds : LinkEnds)
    (observationSettings : ObservationSettings) (bodyMap : NamedBodyMap) :
    Except TudatError ObservationModel1 :=
  if linkEnds.length ≠ 2 then
    .error (.invalidLinkEndTopology "1 way range model link ends count")
  else if linkEnds.countKey receiver = 0 then
    .error (.invalidLinkEndTopology "1 way range model no receiver found")
  else if linkEnds.countKey transmitter = 0 then
    .error (.invalidLinkEndTopology "1 way range model no transmitter found")
  else do
    let observationBias ← createOptionalBiasCalculator 1 linkEnds
      observationSettings.observableType observationSettings.biasSettings bodyMap
    let transmitterId ← linkEnds.atKey transmitter
    let receiverId ← linkEnds.atKey receiver
    .ok (.oneWayRange
      { transmitterId := transmitterId, receiverId := receiverId,
        corrections := observationSettings.lightTimeCorrectionsList }
      observationBias)

/-- The `one_way_doppler` branch of the size-1 creator
(createObservationModel.h, lines 833-888).  When the dynamic cast to
`OneWayDopplerObservationSettings` fails, the proper-time contributions are
left null; when it succeeds, the proper-time calculators are built
unconditionally from the (possibly null) sub-settings. -/
def buildOneWayDopplerModelSize1 (linkEnds : LinkEnds)
    (observationSettings : ObservationSettings) (bodyMap : NamedBodyMap) :
    Except TudatError ObservationModel1 :=
  if linkEnds.length ≠ 2 then
    .error (.invalidLinkEndTopology "1 way Doppler model link ends count")
  else if linkEnds.countKey receiver = 0 then
    .error (.invalidLinkEndTopology "1 way Doppler model no receiver found")
  else if linkEnds.countKey transmitter = 0 then
    .error (.invalidLinkEndTopology "1 way Doppler model no transmitter found")
  else do
    let observationBias ← createOptionalBiasCalculator 1 linkEnds
      observationSettings.observableType observationSettings.biasSettings bodyMap
    match observationSettings with
    | .oneWayDopplerSettings lightTimeCorrections transmitterRateSettings
        receiverRateSettings _ => do
        let transmitterId ← linkEnds.atKey transmitter
        let receiverId ← linkEnds.atKey receiver
        let transmitterRate ← createOneWayDopplerProperTimeCalculator
          transmitterRateSettings linkEnds bodyMap transmitter
        let receiverRate ← createOneWayDopplerProperTimeCalculator
          receiverRateSettings linkEnds bodyMap receiver
        .ok (.oneWayDoppler
          { transmitterId := transmitterId, receiverId := receiverId,
            corrections := lightTimeCorrections }
          (some transmitterRate) (some receiverRate) observationBias)
    | _ => do
        let transmitterId ← linkEnds.atKey transmitter
        let receiverId ← linkEnds.atKey receiver
        .ok (.oneWayDoppler
          { transmitterId := transmitterId, receiverId := receiverId,
            corrections := observationSettings.lightTimeCorrectionsList }
          none none observationBias)

/-- Lift of a nested one-way Doppler settings object to a full settings value:
its static C++ type is `OneWayDopplerObservationSettings`, whose constructor
forces the `one_way_doppler` tag. -/
def oneWayDopplerObjToSettings (obj : OneWayDopplerSettingsObj) : ObservationSettings :=
  .oneWayDopplerSettings obj.lightTimeCorrectionsList
    obj.transmitterProperTimeRateSettings obj.receiverProperTimeRateSettings
    obj.biasSettings

/-- The `two_way_doppler` branch of the size-1 creator
(createObservationModel.h, lines 890-964).  In the source the two legs are
built by recursive calls to `createObservationModel` on settings that always
carry the `one_way_doppler` tag, so those calls immediately dispatch to the
one-way Doppler branch and are inlined here as `buildOneWayDopplerModelSize1`;
a null nested settings pointer is dereferenced by the callee's switch. -/
def buildTwoWayDopplerModelSize1 (linkEnds : LinkEnds)
    (observationSettings : ObservationSettings) (bodyMap : NamedBodyMap) :
    Except TudatError ObservationModel1 :=
  if linkEnds.length ≠ 3 then
    .error (.invalidLinkEndTopology "2 way Doppler model link ends count")
  else if linkEnds.countKey receiver = 0 then
    .error (.invalidLinkEndTopology "2 way Doppler model no receiver found")
  else if linkEnds.countKey reflector1 = 0 then
    .error (.invalidLinkEndTopology "2 way Doppler model no retransmitter found")
  else if linkEnds.countKey transmitter = 0 then
    .error (.invalidLinkEndTopology "2 way Doppler model no transmitter found")
  else do
    let observationBias ← createOptionalBiasCalculator 1 linkEnds
      observationSettings.observableType observationSettings.biasSettings bodyMap
    let transmitterId ← linkEnds.atKey transmitter
    let reflectorId ← linkEnds.atKey reflector1
    let receiverId ← linkEnds.atKey receiver
    let uplinkLinkEnds : LinkEnds := [(transmitter, transmitterId), (receiver, reflectorId)]
    let downlinkLinkEnds : LinkEnds := [(transmitter, reflectorId), (receiver, receiverId)]
    match observationSettings with
    | .twoWayDopplerSettings uplinkSettings downlinkSettings _ =>
        (match uplinkSettings with
         | none => .error .nullPointerDereference
         | some uplinkObj => do
             let uplinkModel ← buildOneWayDopplerModelSize1 uplinkLinkEnds
               (oneWayDopplerObjToSettings uplinkObj) bodyMap
             match downlinkSettings with
             | none => .error .nullPointerDereference
             | some downlinkObj => do
                 let downlinkModel ← buildOneWayDopplerModelSize1 downlinkLinkEnds
                   (oneWayDopplerObjToSettings downlinkObj) bodyMap
                 .ok (.twoWayDoppler (castToOneWayDopplerModel uplinkModel)
                   (castToOneWayDopplerModel downlinkModel) observationBias))
    | _ => do
        let uplinkModel ← buildOneWayDopplerModelSize1 uplinkLinkEnds
          (.base .one_way_doppler observationSettings.lightTimeCorrectionsList none) bodyMap
        let downlinkModel ← buildOneWayDopplerModelSize1 downlinkLinkEnds
          (.base .one_way_doppler observationSettings.lightTimeCorrectionsList none) bodyMap
        .ok (.twoWayDoppler (castToOneWayDopplerModel uplinkModel)
          (castToOneWayDopplerModel downlinkModel) observationBias)

/-- The `one_way_differenced_range` branch of the size-1 creator
(createObservationModel.h, lines 966-1012); note that the dynamic cast
precedes the topology checks there. -/
def buildOneWayDifferencedRangeModelSize1 (linkEnds : LinkEnds)
    (observationSettings : ObservationSettings) (bodyMap : NamedBodyMap) :
    Except TudatError ObservationModel1 :=
  match observationSettings with
  | .oneWayDifferencedRangeRateSettings integrationTimeFunction lightTimeCorrections _ =>
      if linkEnds.length ≠ 2 then
        .error (.invalidLinkEndTopology "1 way range model link ends count")
      else if linkEnds.countKey receiver = 0 then
        .error (.invalidLinkEndTopology "1 way range model no receiver found")
      else if linkEnds.countKey transmitter = 0 then
        .error (.invalidLinkEndTopology "1 way range model no transmitter found")
      else do
        let observationBias ← createOptionalBiasCalculator 1 linkEnds
          observationSettings.observableType observationSettings.biasSettings bodyMap
        let transmitterId ← linkEnds.atKey transmitter
        let receiverId ← linkEnds.atKey receiver
        .ok (.oneWayDifferencedRange
          { transmitterId := transmitterId, receiverId := receiverId,
            corrections := lightTimeCorrections }
          { transmitterId := transmitterId, receiverId := receiverId,
            corrections := lightTimeCorrections }
          integrationTimeFunction observationBias)
  | _ => .error (.invalidSettings "differenced one-way range rate input type is inconsistent")

/-- Chain-adjacency violation test of the n-way branch
(createObservationModel.h, lines 1034-1048): some link-end role other than
transmitter and receiver whose predecessor role (ordinal minus one) is not in
the map. -/
def nWayLinkViolation (linkEnds : LinkEnds) : Bool :=
  linkEnds.any (fun p =>
    p.1 != transmitter && p.1 != receiver && linkEnds.countKey (p.1 - 1) == 0)

/-- The `n_way_range` branch of the size-1 creator
(createObservationModel.h, lines 1013-1118): after the topology checks, one
light-time calculator is built per consecutive pair of link-ends entries; with
explicit constituent settings (concrete `NWayRangeObservationSettings`) their
count must be the hop count and each must carry the `one_way_range` tag,
otherwise every hop reuses the parent's correction list. -/
def buildNWayRangeModelSize1 (linkEnds : LinkEnds)
    (observationSettings : ObservationSettings) (bodyMap : NamedBodyMap) :
    Except TudatError ObservationModel1 :=
  if linkEnds.length < 2 then
    .error (.invalidLinkEndTopology "n way range model link ends count")
  else if linkEnds.countKey receiver = 0 then
    .error (.invalidLinkEndTopology "n way range model no receiver found")
  else if linkEnds.countKey transmitter = 0 then
    .error (.invalidLinkEndTopology "n way range model no transmitter found")
  else if nWayLinkViolation linkEnds then
    .error (.invalidLinkEndTopology "n-way range model did not find previous link end type")
  else do
    let observationBias ← createOptionalBiasCalculator 1 linkEnds
      observationSettings.observableType observationSettings.biasSettings bodyMap
    match observationSettings with
    | .nWayRangeSettings constituents retransmissionTimesFunction _ =>
        if constituents.length ≠ linkEnds.length - 1 then
          .error (.invalidSettings "n-way range input data is inconsistent")
        else do
          let lightTimeCalculators ← ((linkEnds.zip linkEnds.tail).zip constituents).mapM
            (fun hop =>
              if hop.2.observableType ≠ ObservableType.one_way_range then
                Except.error (TudatError.invalidSettings
                  "n-way observable constituent link is not of type 1-way")
              else
                Except.ok
                  { transmitterId := hop.1.1.2, receiverId := hop.1.2.2,
                    corrections := hop.2.lightTimeCorrectionsList })
          .ok (.nWayRange lightTimeCalculators retransmissionTimesFunction observationBias)
    | _ =>
        .ok (.nWayRange
          ((linkEnds.zip linkEnds.tail).map (fun hop =>
            { transmitterId := hop.1.2, receiverId := hop.2.2,
              corrections := observationSettings.lightTimeCorrectionsList }))
          none observationBias)

/-- Function to create an observation model of size 1
(`ObservationModelCreator< 1, ObservationScalarType, TimeType >::createObservationModel`,
createObservationModel.h lines 782-1127), dispatching on the settings'
observable type; observable types with another dimension fall into the default
branch. -/
def createObservationModelSize1 (linkEnds : LinkEnds)
    (observationSettings : ObservationSettings) (bodyMap : NamedBodyMap) :
    Except TudatError ObservationModel1 :=
  match observationSettings.observableType with
  | .one_way_range => buildOneWayRangeModelSize1 linkEnds observationSettings bodyMap
  | .one_way_doppler => buildOneWayDopplerModelSize1 linkEnds observationSettings bodyMap
  | .two_way_doppler => buildTwoWayDopplerModelSize1 linkEnds observationSettings bodyMap
  | .one_way_differenced_range =>
      buildOneWayDifferencedRangeModelSize1 linkEnds observationSettings bodyMap
  | .n_way_range => buildNWayRangeModelSize1 linkEnds observationSettings bodyMap
  | _ => .error (.unrecognizedType
      "observable not recognized when making size 1 observation model")

/-! Regrouping of an unsorted observation-settings multimap
(createObservationModel.h, lines 555-571). -/

/-- The multimap `ObservationSettingsMap` keyed by link ends
(createObservationModel.h, line 562), as its entry list in key order. -/
abbrev ObservationSettingsListMap := List (LinkEnds × ObservationSettings)

/-- The nested map `SortedObservationSettingsMap` keyed by observable type and
then link ends (createObservationModel.h, line 558), as nested association
lists. -/
abbrev SortedObservationSettingsMap :=
  List (ObservableType × List (LinkEnds × ObservationSettings))

/-- Subscript-assignment on the inner link-ends-keyed map: replace the value
of an existing key or append a new entry. -/
def linkEndsMapInsert (m : List (LinkEnds × ObservationSettings)) (key : LinkEnds)
    (value : ObservationSettings) : List (LinkEnds × ObservationSettings) :=
  match m with
  | [] => [(key, value)]
  | p :: rest =>
      if p.1 = key then (key, value) :: rest
      else p :: linkEndsMapInsert rest key value

/-- Subscript-assignment on the outer observable-type-keyed map. -/
def sortedSettingsMapInsert (m : SortedObservationSettingsMap) (key : ObservableType)
    (linkEnds : LinkEnds) (value : ObservationSettings) : SortedObservationSettingsMap :=
  match m with
  | [] => [(key, [(linkEnds, value)])]
  | p :: rest =>
      if p.1 = key then (key, linkEndsMapInsert p.2 linkEnds value) :: rest
      else p :: sortedSettingsMapInsert rest key linkEnds value

/-- Modelled from the spec: `convertUnsortedToSortedObservationSettingsMap` is
declared at createObservationModel.h line 570 but defined in a source file
outside the excerpt.  Per spec section 4.4 it regroups every entry of the
link-ends-keyed multimap under the observable type read out of its settings
object, into the declared return type `SortedObservationSettingsMap`; since
that type is a map of maps, placing an entry under an already occupied
(observable type, link ends) pair overwrites the present entry, as map
subscript-assignment does. -/
def convertUnsortedToSortedObservationSettingsMap
    (unsortedObservationSettingsMap : ObservationSettingsListMap) :
    SortedObservationSettingsMap :=
  unsortedObservationSettingsMap.foldl
    (fun sorted entry =>
      sortedSettingsMapInsert sorted entry.2.observableType entry.1 entry.2)
    []

/-- Total number of entries of a sorted observation-settings map. -/
def SortedObservationSettingsMap.totalEntries (m : SortedObservationSettingsMap) : Nat :=
  (m.map (fun p => p.2.length)).sum

/-! Theorems. -/

/-- Decidable equality of `Except` results, for evaluating the embedded
functions at concrete inputs. -/
instance {ε α : Type} [DecidableEq ε] [DecidableEq α] : DecidableEq (Except ε α) :=
  fun a b =>
    match a, b with
    | .error e, .error f =>
        if h : e = f then isTrue (by rw [h])
        else isFalse (fun hh => h (Except.error.inj hh))
    | .ok x, .ok y =>
        if h : x = y then isTrue (by rw [h])
        else isFalse (fun hh => h (Except.ok.inj hh))
    | .error _, .ok _ => isFalse (fun hh => Except.noConfusion hh)
    | .ok _, .error _ => isFalse (fun hh => Except.noConfusion hh)

/-- C1.  The claim says an unknown torque-model kind makes
`createRotationalEquationsOfMotionEnvironmentUpdaterSettings` fail with an
`UnrecognizedType` error without returning an update map, as the spec requires
("Unknown kind fails") and as every sibling resolver in the file does.  The
code instead only writes an error line to `std::cerr` in the `default:` branch
(createEnvironmentUpdater.cpp, lines 233-235) and continues: at the failing
input below — one torque of unrecognized kind — it returns the (empty) update
map together with the stderr line, and no error. -/
theorem torque_resolver_unknown_kind_returns_map_with_warning :
    createRotationalEquationsOfMotionEnvironmentUpdaterSettings
      [("V", [("E", [TorqueModel.unrecognizedTorque 0])])] [] =
      Except.ok (({} : EnvironmentUpdateMap),
        ["Error, update information not found for torque model"]) := by
  decide

/-- C2.  The claim says that a one-way Doppler build whose transmitter- and
receiver-side proper-time-rate sub-settings are null succeeds with the
proper-time contributions omitted, and in particular that no null settings
pointer is dereferenced even when the settings object is of the concrete
`OneWayDopplerObservationSettings` type with null sub-settings.  On the
base-class settings path the code indeed omits the contributions (second
conjunct), but on the concrete-type path it unconditionally calls
`createOneWayDopplerProperTimeCalculator` on the null sub-settings
(createObservationModel.h, lines 880-883), which dereferences them at its
first switch (line 494): the first conjunct evaluates the build at that
failing input to the null-pointer dereference. -/
theorem one_way_doppler_null_proper_time_sub_settings_crashes :
    createObservationModelSize1 [(transmitter, ("Earth", "")), (receiver, ("Moon", ""))]
      (ObservationSettings.oneWayDopplerSettings [] none none none) [] =
      Except.error TudatError.nullPointerDereference ∧
    createObservationModelSize1 [(transmitter, ("Earth", "")), (receiver, ("Moon", ""))]
      (ObservationSettings.base ObservableType.one_way_doppler [] none) [] =
      Except.ok (ObservationModel1.oneWayDoppler
        { transmitterId := ("Earth", ""), receiverId := ("Moon", ""), corrections := [] }
        none none none) :=
  ⟨rfl, rfl⟩

/-- Removing a single translationally propagated body erases the first
occurrence of its name from the translational facet and touches nothing
else. -/
theorem removePropagated_translational_singleton (m : EnvironmentUpdateMap)
    (name refPoint : String) :
    removePropagatedStatesFomEnvironmentUpdates m
      [(translational_state, [(name, refPoint)])] =
      Except.ok (m.set .body_translational_state_update
        ((m.get .body_translational_state_update).erase name)) := rfl

/-- C6.  First part: an update map whose translational facet holds bodies A
and B, pruned with a propagated-state list naming A as translationally
propagated, loses exactly the first entry equal to A, keeps B and leaves every
other facet unchanged.  Second part: a custom propagated-state kind is a
no-op.  Third part: a propagated-state kind outside the known set fails with
an `UnrecognizedType` error. -/
theorem remove_propagated_states_translational_removes_first_match :
    (∀ (m : EnvironmentUpdateMap) (nameA nameB refPoint : String),
        nameA ∈ m.translationalStateBodies → nameB ∈ m.translationalStateBodies →
        nameA ≠ nameB →
        ∃ m2, removePropagatedStatesFomEnvironmentUpdates m
            [(translational_state, [(nameA, refPoint)])] = Except.ok m2 ∧
          m2.translationalStateBodies = m.translationalStateBodies.erase nameA ∧
          nameB ∈ m2.translationalStateBodies ∧
          m2.rotationalStateBodies = m.rotationalStateBodies ∧
          m2.sphericalHarmonicGravityFieldBodies = m.sphericalHarmonicGravityFieldBodies ∧
          m2.flightConditionsBodies = m.flightConditionsBodies ∧
          m2.radiationPressureBodies = m.radiationPressureBodies ∧
          m2.massBodies = m.massBodies) ∧
    (∀ (m : EnvironmentUpdateMap) (propagatedBodies : List (String × String)),
        removePropagatedStatesFomEnvironmentUpdates m
          [(custom_state, propagatedBodies)] = Except.ok m) ∧
    (∀ (m : EnvironmentUpdateMap) (stateType : Nat) (propagatedBody : String × String),
        stateType ≠ translational_state → stateType ≠ rotational_state →
        stateType ≠ body_mass_state → stateType ≠ custom_state →
        ∃ msg, removePropagatedStatesFomEnvironmentUpdates m
          [(stateType, [propagatedBody])] = Except.error (.unrecognizedType msg)) := by
  refine ⟨?_, ?_, ?_⟩
  · intro m nameA nameB refPoint hA hB hAB
    refine ⟨_, removePropagated_translational_singleton m nameA refPoint, rfl, ?_, rfl, rfl, rfl, rfl, rfl⟩
    exact List.mem_erase_of_ne (fun h => hAB h.symm) |>.mpr hB
  · intro m propagatedBodies
    show removePropagatedStatesFomEnvironmentUpdates m _ = _
    have h : ∀ (l : List (String × String)),
        removePropagatedStateBodies custom_state l m = Except.ok m := by
      intro l
      induction l with
      | nil => rfl
      | cons hd tl ih =>
          simpa [removePropagatedStateBodies, removePropagatedStateSingle,
            translational_state, rotational_state, body_mass_state, custom_state] using ih
    simp [removePropagatedStatesFomEnvironmentUpdates, h propagatedBodies]
  · intro m stateType propagatedBody h0 h1 h2 h3
    refine ⟨"state type not recognized when removing propagated states from environment updates", ?_⟩
    simp [removePropagatedStatesFomEnvironmentUpdates, removePropagatedStateBodies,
      removePropagatedStateSingle, h0, h1, h2, h3]

/-- C6 witness: the first part applied at a concrete two-body update map. -/
theorem remove_propagated_states_witness :
    ∃ m2, removePropagatedStatesFomEnvironmentUpdates
        { translationalStateBodies := ["A", "B"] }
        [(translational_state, [("A", "")])] = Except.ok m2 ∧
      m2.translationalStateBodies =
        (["A", "B"].erase "A" : List String) ∧
      "B" ∈ m2.translationalStateBodies ∧
      m2.rotationalStateBodies = [] ∧
      m2.sphericalHarmonicGravityFieldBodies = [] ∧
      m2.flightConditionsBodies = [] ∧
      m2.radiationPressureBodies = [] ∧
      m2.massBodies = [] :=
  remove_propagated_states_translational_removes_first_match.1
    { translationalStateBodies := ["A", "B"] } "A" "B" ""
    (by decide) (by decide) (by decide)

/-- C10 counterexample.  The claim says pruning leaves the translational
entries of a map produced by the acceleration resolver unchanged because the
two facet spellings were distinct keys; at the concrete input below the
resolver lists body E under the facet it spells
`body_transational_state_update`, and pruning E as a translationally
propagated state empties that very list. -/
theorem remove_propagated_states_prunes_acceleration_resolver_map :
    createTranslationalEquationsOfMotionEnvironmentUpdaterSettings
      [("V", [("E", [AccelerationModel.centralGravity])])]
      [("E", { ephemeris := true })] =
      Except.ok { translationalStateBodies := ["E"] } ∧
    removePropagatedStatesFomEnvironmentUpdates
      { translationalStateBodies := ["E"] }
      [(translational_state, [("E", "")])] = Except.ok ({} : EnvironmentUpdateMap) ∧
    ({} : EnvironmentUpdateMap).translationalStateBodies ≠
      ({ translationalStateBodies := ["E"] } : EnvironmentUpdateMap).translationalStateBodies := by
  refine ⟨by decide, by decide, by decide⟩

/-- C10 amended: because both source spellings denote the single
translational-state facet, `removePropagatedStatesFomEnvironmentUpdates` does
remove a translationally propagated body from the translational entries
produced by `createTranslationalEquationsOfMotionEnvironmentUpdaterSettings`
(the entry list shrinks by one). -/
theorem acceleration_resolver_translational_entries_are_pruned
    (accelerationModels : AccelerationMap) (bodyMap : NamedBodyMap)
    (m : EnvironmentUpdateMap) (name refPoint : String)
    (h : createTranslationalEquationsOfMotionEnvironmentUpdaterSettings
      accelerationModels bodyMap = Except.ok m)
    (hmem : name ∈ m.get body_transational_state_update) :
    ∃ m2, removePropagatedStatesFomEnvironmentUpdates m
        [(translational_state, [(name, refPoint)])] = Except.ok m2 ∧
      m2.translationalStateBodies = m.translationalStateBodies.erase name ∧
      m2.translationalStateBodies.length + 1 = m.translationalStateBodies.length := by
  refine ⟨_, removePropagated_translational_singleton m name refPoint, rfl, ?_⟩
  have hmem2 : name ∈ m.translationalStateBodies := hmem
  have := List.length_erase_of_mem hmem2
  have hpos : 0 < m.translationalStateBodies.length := List.length_pos_of_mem hmem2
  simp only [EnvironmentUpdateMap.set, EnvironmentUpdateMap.get]
  omega

/-- C10 amended witness: the amended statement applied at the concrete
one-acceleration input. -/
theorem acceleration_resolver_pruning_witness :
    ∃ m2, removePropagatedStatesFomEnvironmentUpdates
        { translationalStateBodies := ["E"] }
        [(translational_state, [("E", "")])] = Except.ok m2 ∧
      m2.translationalStateBodies = (["E"].erase "E" : List String) ∧
      m2.translationalStateBodies.length + 1 =
        ({ translationalStateBodies := ["E"] } :
          EnvironmentUpdateMap).translationalStateBodies.length :=
  acceleration_resolver_translational_entries_are_pruned
    [("V", [("E", [AccelerationModel.centralGravity])])]
    [("E", { ephemeris := true })]
    { translationalStateBodies := ["E"] } "E" ""
    (by decide) (by decide)

/-- Characterization of `updateEntryFails`: a non-empty body name naming a
body absent from the environment or lacking the facet's sub-model. -/
theorem updateEntryFails_eq_true_iff (bodyMap : NamedBodyMap)
    (facet : EnvironmentModelsToUpdate) (name : String) :
    updateEntryFails bodyMap facet name = true ↔
      name ≠ "" ∧ (bodyMap.lookup name = none ∨
        ∃ body, bodyMap.lookup name = some body ∧ facetSubmodelPresent facet body = false) := by
  unfold updateEntryFails
  cases hb : bodyMap.lookup name <;> simp [hb]

/-- A single entry check succeeds exactly when the entry is not failing. -/
theorem checkSingle_ok_iff (bodyMap : NamedBodyMap)
    (facet : EnvironmentModelsToUpdate) (name : String) :
    checkSingleEnvironmentUpdate bodyMap facet name = Except.ok () ↔
      updateEntryFails bodyMap facet name = false := by
  unfold checkSingleEnvironmentUpdate updateEntryFails
  by_cases h : name = ""
  · simp [h]
  · cases hb : bodyMap.lookup name with
    | none => simp [h, hb]
    | some body =>
        cases hp : facetSubmodelPresent facet body <;> simp [h, hb, hp]

/-- A single entry check fails with a `MissingEnvironmentModel` error exactly
when the entry is failing. -/
theorem checkSingle_error_iff (bodyMap : NamedBodyMap)
    (facet : EnvironmentModelsToUpdate) (name : String) :
    (∃ msg, checkSingleEnvironmentUpdate bodyMap facet name =
      Except.error (.missingEnvironmentModel msg)) ↔
      updateEntryFails bodyMap facet name = true := by
  unfold checkSingleEnvironmentUpdate updateEntryFails
  by_cases h : name = ""
  · simp [h]
  · cases hb : bodyMap.lookup name with
    | none => simp [h, hb]
    | some body =>
        cases hp : facetSubmodelPresent facet body <;> simp [h, hb, hp]

/-- The per-facet body loop fails with a `MissingEnvironmentModel` error
exactly when some requested body of the facet is failing. -/
theorem checkBodiesForFacet_error_iff (bodyMap : NamedBodyMap)
    (facet : EnvironmentModelsToUpdate) (bodies : List String) :
    (∃ msg, checkBodiesForFacet bodyMap facet bodies =
      Except.error (.missingEnvironmentModel msg)) ↔
      ∃ name ∈ bodies, updateEntryFails bodyMap facet name = true := by
  induction bodies with
  | nil => simp [checkBodiesForFacet]
  | cons hd tl ih =>
      unfold checkBodiesForFacet
      cases hc : checkSingleEnvironmentUpdate bodyMap facet hd with
      | error e =>
          have hbad : updateEntryFails bodyMap facet hd = true := by
            rcases (checkSingle_ok_iff bodyMap facet hd) with ⟨h1, h2⟩
            cases hfail : updateEntryFails bodyMap facet hd
            · exact absurd (h2 hfail) (by simp [hc])
            · rfl
          have hmsg : ∃ msg, e = TudatError.missingEnvironmentModel msg := by
            rcases (checkSingle_error_iff bodyMap facet hd).mpr hbad with ⟨msg, hmsg⟩
            rw [hc] at hmsg
            exact ⟨msg, (Except.error.inj hmsg)⟩
          rcases hmsg with ⟨msg, rfl⟩
          simp [hbad]
      | ok u =>
          cases u
          have hok : updateEntryFails bodyMap facet hd = false :=
            (checkSingle_ok_iff bodyMap facet hd).mp hc
          simp [ih, hok]

/-- The per-facet body loop succeeds exactly when no requested body of the
facet is failing. -/
theorem checkBodiesForFacet_ok_iff (bodyMap : NamedBodyMap)
    (facet : EnvironmentModelsToUpdate) (bodies : List String) :
    checkBodiesForFacet bodyMap facet bodies = Except.ok () ↔
      ∀ name ∈ bodies, updateEntryFails bodyMap facet name = false := by
  induction bodies with
  | nil => simp [checkBodiesForFacet]
  | cons hd tl ih =>
      unfold checkBodiesForFacet
      cases hc : checkSingleEnvironmentUpdate bodyMap facet hd with
      | error e =>
          have : ¬ updateEntryFails bodyMap facet hd = false := by
            intro hfail
            have := (checkSingle_ok_iff bodyMap facet hd).mpr hfail
            rw [hc] at this
            exact Except.noConfusion this
          simp [this]
      | ok u =>
          cases u
          have hok : updateEntryFails bodyMap facet hd = false :=
            (checkSingle_ok_iff bodyMap facet hd).mp hc
          simp [ih, hok]

/-- The facet loop fails with a `MissingEnvironmentModel` error exactly when
some listed facet has a failing requested body. -/
theorem checkFacets_error_iff (requestedUpdates : EnvironmentUpdateMap)
    (bodyMap : NamedBodyMap) (facets : List EnvironmentModelsToUpdate) :
    (∃ msg, checkFacets requestedUpdates bodyMap facets =
      Except.error (.missingEnvironmentModel msg)) ↔
      ∃ facet ∈ facets, ∃ name ∈ requestedUpdates.get facet,
        updateEntryFails bodyMap facet name = true := by
  induction facets with
  | nil => simp [checkFacets]
  | cons hd tl ih =>
      unfold checkFacets
      cases hc : checkBodiesForFacet bodyMap hd (requestedUpdates.get hd) with
      | error e =>
          have hbad : ∃ name ∈ requestedUpdates.get hd,
              updateEntryFails bodyMap hd name = true := by
            by_contra hno
            have : ∀ name ∈ requestedUpdates.get hd,
                updateEntryFails bodyMap hd name = false := by
              intro n hn
              cases hfail : updateEntryFails bodyMap hd n
              · rfl
              · exact absurd ⟨n, hn, hfail⟩ hno
            have := (checkBodiesForFacet_ok_iff bodyMap hd (requestedUpdates.get hd)).mpr this
            rw [hc] at this
            exact Except.noConfusion this
          have hmsg : ∃ msg, e = TudatError.missingEnvironmentModel msg := by
            rcases (checkBodiesForFacet_error_iff bodyMap hd
              (requestedUpdates.get hd)).mpr hbad with ⟨msg, hmsg⟩
            rw [hc] at hmsg
            exact ⟨msg, (Except.error.inj hmsg)⟩
          rcases hmsg with ⟨msg, rfl⟩
          constructor
          · intro _
            exact ⟨hd, List.mem_cons_self hd tl, hbad⟩
          · intro _
            exact ⟨msg, rfl⟩
      | ok u =>
          cases u
          have hok : ∀ name ∈ requestedUpdates.get hd,
              updateEntryFails bodyMap hd name = false :=
            (checkBodiesForFacet_ok_iff bodyMap hd (requestedUpdates.get hd)).mp hc
          rw [ih]
          constructor
          · rintro ⟨f, hf, hx⟩
            exact ⟨f, List.mem_cons_of_mem hd hf, hx⟩
          · rintro ⟨f, hf, n, hn, hx⟩
            rcases List.mem_cons.mp hf with rfl | hf2
            · exact absurd hx (by simp [hok n hn])
            · exact ⟨f, hf2, n, hn, hx⟩

/-- The facet loop succeeds exactly when no listed facet has a failing
requested body. -/
theorem checkFacets_ok_iff (requestedUpdates : EnvironmentUpdateMap)
    (bodyMap : NamedBodyMap) (facets : List EnvironmentModelsToUpdate) :
    checkFacets requestedUpdates bodyMap facets = Except.ok () ↔
      ∀ facet ∈ facets, ∀ name ∈ requestedUpdates.get facet,
        updateEntryFails bodyMap facet name = false := by
  induction facets with
  | nil => simp [checkFacets]
  | cons hd tl ih =>
      unfold checkFacets
      cases hc : checkBodiesForFacet bodyMap hd (requestedUpdates.get hd) with
      | error e =>
          constructor
          · intro h
            exact absurd h (by simp)
          · intro h
            have := (checkBodiesForFacet_ok_iff bodyMap hd (requestedUpdates.get hd)).mpr
              (h hd (List.mem_cons_self hd tl))
            rw [hc] at this
            exact absurd this (by simp)
      | ok u =>
          cases u
          have hok : ∀ name ∈ requestedUpdates.get hd,
              updateEntryFails bodyMap hd name = false :=
            (checkBodiesForFacet_ok_iff bodyMap hd (requestedUpdates.get hd)).mp hc
          rw [ih]
          constructor
          · intro h f hf
            rcases List.mem_cons.mp hf with rfl | hf2
            · exact hok
            · exact h f hf2
          · intro h f hf
            exact h f (List.mem_cons_of_mem hd hf)

/-- Every facet is listed in the iteration order. -/
theorem mem_facetIterationOrder (facet : EnvironmentModelsToUpdate) :
    facet ∈ facetIterationOrder := by
  cases facet <;> simp [facetIterationOrder]

/-- C5.  `checkValidityOfRequiredEnvironmentUpdates` fails, always with a
`MissingEnvironmentModel` error, if and only if some (facet, body-name) entry
of the requested-updates map has a non-empty name that names a body absent
from the environment or a body lacking the facet's required sub-model
(ephemeris; rotational ephemeris or dependent orientation calculator;
spherical-harmonic gravity field; flight conditions; at least one
radiation-pressure interface; body-mass function — see
`facetSubmodelPresent`); empty names are skipped, and otherwise the check
returns plain success (it is a `void` observer, so success changes nothing). -/
theorem check_validity_fails_iff_missing_environment_model
    (requestedUpdates : EnvironmentUpdateMap) (bodyMap : NamedBodyMap) :
    ((∃ msg, checkValidityOfRequiredEnvironmentUpdates requestedUpdates bodyMap =
        Except.error (.missingEnvironmentModel msg)) ↔
      ∃ facet, ∃ name ∈ requestedUpdates.get facet, name ≠ "" ∧
        (bodyMap.lookup name = none ∨
          ∃ body, bodyMap.lookup name = some body ∧
            facetSubmodelPresent facet body = false)) ∧
    (checkValidityOfRequiredEnvironmentUpdates requestedUpdates bodyMap = Except.ok () ↔
      ¬ ∃ facet, ∃ name ∈ requestedUpdates.get facet, name ≠ "" ∧
        (bodyMap.lookup name = none ∨
          ∃ body, bodyMap.lookup name = some body ∧
            facetSubmodelPresent facet body = false)) := by
  have hchar : ∀ facet name, (name ≠ "" ∧ (bodyMap.lookup name = none ∨
      ∃ body, bodyMap.lookup name = some body ∧
        facetSubmodelPresent facet body = false)) ↔
      updateEntryFails bodyMap facet name = true := by
    intro facet name
    exact (updateEntryFails_eq_true_iff bodyMap facet name).symm
  constructor
  · rw [show checkValidityOfRequiredEnvironmentUpdates requestedUpdates bodyMap =
      checkFacets requestedUpdates bodyMap facetIterationOrder from rfl,
      checkFacets_error_iff]
    constructor
    · rintro ⟨f, _, n, hn, hx⟩
      exact ⟨f, n, hn, (hchar f n).mpr hx⟩
    · rintro ⟨f, n, hn, hx⟩
      exact ⟨f, mem_facetIterationOrder f, n, hn, (hchar f n).mp hx⟩
  · rw [show checkValidityOfRequiredEnvironmentUpdates requestedUpdates bodyMap =
      checkFacets requestedUpdates bodyMap facetIterationOrder from rfl,
      checkFacets_ok_iff]
    constructor
    · intro h hbad
      rcases hbad with ⟨f, n, hn, hx⟩
      have := h f (mem_facetIterationOrder f) n hn
      rw [(hchar f n).mp hx] at this
      exact Bool.noConfusion this
    · intro h f _ n hn
      cases hfail : updateEntryFails bodyMap f n
      · rfl
      · exact absurd ⟨f, n, hn, (hchar f n).mpr hfail⟩ h

/-- Fields of a successful brute-force fold: the rotational list extends the
accumulator with the names of the bodies having a rotation source, and the
radiation list with one entry per (body, interface) pair, in body order. -/
theorem createFullAux_ok_fields (bodyMap : NamedBodyMap) :
    ∀ (l : List (String × Body)) (acc m : EnvironmentUpdateMap),
      createFullEnvironmentUpdaterSettingsAux bodyMap l acc = Except.ok m →
      m.rotationalStateBodies = acc.rotationalStateBodies ++
        (l.filter (fun p =>
          p.2.rotationalEphemeris || p.2.dependentOrientationCalculator)).map Prod.fst ∧
      m.radiationPressureBodies = acc.radiationPressureBodies ++
        l.flatMap (fun p => p.2.radiationPressureInterfaces.map (fun _ => p.1)) := by
  intro l
  induction l with
  | nil =>
      intro acc m h
      have hm : Except.ok (ε := TudatError) acc = Except.ok m := h
      rw [Except.ok.inj hm]
      simp
  | cons hd tl ih =>
      intro acc m h
      unfold createFullEnvironmentUpdaterSettingsAux at h
      cases hc : checkValidityOfRequiredEnvironmentUpdates
          (fullSingleBodyUpdateNeeds hd.1 hd.2) bodyMap with
      | error e =>
          simp only [hc] at h
          exact Except.noConfusion h
      | ok u =>
          cases u
          simp only [hc] at h
          rcases ih (addEnvironmentUpdates acc (fullSingleBodyUpdateNeeds hd.1 hd.2)) m h with
            ⟨h1, h2⟩
          constructor
          · rw [h1]
            cases hrot : (hd.2.rotationalEphemeris || hd.2.dependentOrientationCalculator) <;>
              simp [addEnvironmentUpdates, fullSingleBodyUpdateNeeds, hrot,
                List.filter_cons, List.append_assoc]
          · rw [h2]
            simp [addEnvironmentUpdates, fullSingleBodyUpdateNeeds, List.append_assoc]

/-- C7.  Whenever the brute-force builder returns an update map, a body name
is listed under the rotational-state facet exactly when the environment pairs
that name with a body carrying a rotational ephemeris or a dependent
orientation calculator. -/
theorem full_updater_rotational_state_iff_rotation_model
    (bodyMap : NamedBodyMap) (m : EnvironmentUpdateMap) (name : String)
    (h : createFullEnvironmentUpdaterSettings bodyMap = Except.ok m) :
    name ∈ m.rotationalStateBodies ↔
      ∃ body, (name, body) ∈ bodyMap ∧
        (body.rotationalEphemeris || body.dependentOrientationCalculator) = true := by
  have hf := (createFullAux_ok_fields bodyMap bodyMap {} m h).1
  rw [hf]
  show name ∈ ([] : List String) ++ _ ↔ _
  rw [List.nil_append]
  constructor
  · intro hmem
    rcases List.mem_map.mp hmem with ⟨p, hp, hp1⟩
    rcases List.mem_filter.mp hp with ⟨hpmem, hpflag⟩
    refine ⟨p.2, ?_, hpflag⟩
    rw [← hp1]
    exact hpmem
  · rintro ⟨body, hmem, hrot⟩
    exact List.mem_map.mpr ⟨(name, body), List.mem_filter.mpr ⟨hmem, hrot⟩, rfl⟩

/-- C7 witness: the characterization applied to a concrete environment holding
one body with a rotation model and one without. -/
theorem full_updater_rotational_witness :
    ("A" ∈ ({ rotationalStateBodies := ["A"], massBodies := ["A", "B"] } :
        EnvironmentUpdateMap).rotationalStateBodies ↔
      ∃ body, ("A", body) ∈
          ([("A", { rotationalEphemeris := true, bodyMassFunction := true }),
            ("B", { bodyMassFunction := true })] : NamedBodyMap) ∧
        (body.rotationalEphemeris || body.dependentOrientationCalculator) = true) ∧
    ("B" ∈ ({ rotationalStateBodies := ["A"], massBodies := ["A", "B"] } :
        EnvironmentUpdateMap).rotationalStateBodies ↔
      ∃ body, ("B", body) ∈
          ([("A", { rotationalEphemeris := true, bodyMassFunction := true }),
            ("B", { bodyMassFunction := true })] : NamedBodyMap) ∧
        (body.rotationalEphemeris || body.dependentOrientationCalculator) = true) :=
  ⟨full_updater_rotational_state_iff_rotation_model _ _ "A" (by decide),
   full_updater_rotational_state_iff_rotation_model _ _ "B" (by decide)⟩

/-- Count of a constant-mapped list. -/
theorem count_map_const {α : Type} (l : List α) (a b : String) :
    ((l.map (fun _ => a)).count b) = if b = a then l.length else 0 := by
  induction l with
  | nil => simp
  | cons hd tl ih =>
      by_cases hba : b = a
      · simp [List.count_cons, ih, hba]
      · simp [List.count_cons, ih, hba, List.count_replicate]
        exact fun h => absurd h.symm hba

/-- A name absent from the keys contributes nothing to the radiation-entry
concatenation. -/
theorem count_radiation_bind_zero (tl : List (String × Body)) (name : String)
    (h : name ∉ tl.map Prod.fst) :
    ((tl.flatMap (fun p => p.2.radiationPressureInterfaces.map (fun _ => p.1))).count name) = 0 := by
  induction tl with
  | nil => simp
  | cons hd tl2 ih =>
      rw [List.flatMap_cons, List.count_append]
      have hne : name ≠ hd.1 := by
        intro heq
        exact h (by simp [heq])
      rw [count_map_const, if_neg hne, ih (fun hmem => h (by simp [hmem]))]

/-- With unique keys, the number of radiation entries of a name equals the
number of radiation-pressure interfaces of its body. -/
theorem count_radiation_bind_keyed (l : List (String × Body)) (name : String) (body : Body)
    (hnodup : (l.map Prod.fst).Nodup) (hmem : (name, body) ∈ l) :
    ((l.flatMap (fun p => p.2.radiationPressureInterfaces.map (fun _ => p.1))).count name) =
      body.radiationPressureInterfaces.length := by
  induction l with
  | nil => cases hmem
  | cons hd tl ih =>
      rw [List.map_cons, List.nodup_cons] at hnodup
      rw [List.flatMap_cons, List.count_append]
      rcases List.mem_cons.mp hmem with heq | hmem2
      · rw [← heq]
        rw [count_map_const, if_pos rfl]
        have hnot : name ∉ tl.map Prod.fst := by
          rw [← heq] at hnodup
          exact hnodup.1
        rw [count_radiation_bind_zero tl name hnot]
        simp
      · have hne : name ≠ hd.1 := by
          intro heq2
          exact hnodup.1 (heq2 ▸ (List.mem_map.mpr ⟨(name, body), hmem2, rfl⟩))
        rw [count_map_const, if_neg hne, ih hnodup.2 hmem2]
        simp

/-- C8 counterexample.  The claim says the brute-force builder lists a body at
most once under the radiation-pressure facet regardless of its number of
interfaces; for a body with two interfaces the source pushes the name once per
interface (createEnvironmentUpdater.cpp, lines 829-835) and the merge of spec
section 4.6 keeps duplicates, so the name appears twice. -/
theorem full_updater_two_interfaces_duplicate_entry :
    createFullEnvironmentUpdaterSettings
      [("S", { radiationPressureInterfaces := ["X", "Y"], bodyMassFunction := true })] =
      Except.ok { radiationPressureBodies := ["S", "S"], massBodies := ["S"] } ∧
    (({ radiationPressureBodies := ["S", "S"], massBodies := ["S"] } :
      EnvironmentUpdateMap).radiationPressureBodies.count "S") = 2 :=
  ⟨by decide, by decide⟩

/-- C8 amended: whenever the brute-force builder returns an update map over an
environment with unique body names, each body's name appears under the
radiation-pressure facet once per radiation-pressure interface of that body
(so exactly once only when the body has exactly one interface). -/
theorem full_updater_radiation_pressure_entry_per_interface
    (bodyMap : NamedBodyMap) (m : EnvironmentUpdateMap) (name : String) (body : Body)
    (hnodup : (bodyMap.map Prod.fst).Nodup)
    (h : createFullEnvironmentUpdaterSettings bodyMap = Except.ok m)
    (hmem : (name, body) ∈ bodyMap) :
    m.radiationPressureBodies.count name = body.radiationPressureInterfaces.length := by
  have hf := (createFullAux_ok_fields bodyMap bodyMap {} m h).2
  rw [hf]
  show (([] : List String) ++ _).count name = _
  rw [List.nil_append]
  exact count_radiation_bind_keyed bodyMap name body hnodup hmem

/-- C8 amended witness: the per-interface count at the concrete two-interface
environment. -/
theorem full_updater_radiation_pressure_witness :
    ({ radiationPressureBodies := ["S", "S"], massBodies := ["S"] } :
      EnvironmentUpdateMap).radiationPressureBodies.count "S" =
      ({ radiationPressureInterfaces := ["X", "Y"], bodyMassFunction := true } :
        Body).radiationPressureInterfaces.length :=
  full_updater_radiation_pressure_entry_per_interface
    [("S", { radiationPressureInterfaces := ["X", "Y"], bodyMassFunction := true })]
    { radiationPressureBodies := ["S", "S"], massBodies := ["S"] }
    "S" { radiationPressureInterfaces := ["X", "Y"], bodyMassFunction := true }
    (by decide) (by decide) (by decide)

/-- Reduction of a successful `Except` bind. -/
theorem exceptOkBind {ε α β : Type} (a : α) (f : α → Except ε β) :
    ((Except.ok a : Except ε α) >>= f) = f a := rfl

/-- The size-1 creator dispatches n-way-range-tagged settings to the n-way
branch. -/
theorem createSize1_dispatch_nway (linkEnds : LinkEnds)
    (observationSettings : ObservationSettings) (bodyMap : NamedBodyMap)
    (h : observationSettings.observableType = ObservableType.n_way_range) :
    createObservationModelSize1 linkEnds observationSettings bodyMap =
      buildNWayRangeModelSize1 linkEnds observationSettings bodyMap := by
  unfold createObservationModelSize1
  rw [h]

/-- C4.  First part: an n-way-range build over link ends of size at least two
that contain the transmitter and receiver roles and satisfy the
chain-adjacency check, with settings that are not of the concrete
`NWayRangeObservationSettings` type (and whose optional bias builds), succeeds
and creates exactly `linkEnds.length - 1` light-time calculators, one per
consecutive pair of link-ends entries, each constructed with the parent
settings' light-time-corrections list.  Second part: an n-way-range build
whose link ends lack the receiver role fails with an `InvalidLinkEndTopology`
error. -/
theorem n_way_range_hop_calculators_and_receiver_topology :
    (∀ (linkEnds : LinkEnds) (observationSettings : ObservationSettings)
        (bodyMap : NamedBodyMap) (builtBias : Option ObservationBias),
        LinkEnds.WF linkEnds →
        observationSettings.observableType = ObservableType.n_way_range →
        observationSettings.isNWayRangeConcrete = false →
        2 ≤ linkEnds.length →
        linkEnds.countKey transmitter ≠ 0 →
        linkEnds.countKey receiver ≠ 0 →
        nWayLinkViolation linkEnds = false →
        createOptionalBiasCalculator 1 linkEnds observationSettings.observableType
          observationSettings.biasSettings bodyMap = Except.ok builtBias →
        ∃ calculators,
          createObservationModelSize1 linkEnds observationSettings bodyMap =
            Except.ok (ObservationModel1.nWayRange calculators none builtBias) ∧
          calculators =
            (linkEnds.zip linkEnds.tail).map (fun hop =>
              { transmitterId := hop.1.2, receiverId := hop.2.2,
                corrections := observationSettings.lightTimeCorrectionsList }) ∧
          calculators.length = linkEnds.length - 1 ∧
          ∀ c ∈ calculators,
            c.corrections = observationSettings.lightTimeCorrectionsList) ∧
    (∀ (linkEnds : LinkEnds) (observationSettings : ObservationSettings)
        (bodyMap : NamedBodyMap),
        observationSettings.observableType = ObservableType.n_way_range →
        linkEnds.countKey receiver = 0 →
        ∃ msg, createObservationModelSize1 linkEnds observationSettings bodyMap =
          Except.error (.invalidLinkEndTopology msg)) := by
  constructor
  · intro linkEnds observationSettings bodyMap builtBias hwf htag hconc h2 htrans hrecv
      hchain hbias
    rw [createSize1_dispatch_nway linkEnds observationSettings bodyMap htag]
    cases observationSettings with
    | base t lightTimeCorrections biasSettings =>
        have ht : t = ObservableType.n_way_range := by
          simpa [ObservationSettings.observableType] using htag
        subst ht
        refine ⟨(linkEnds.zip linkEnds.tail).map (fun hop =>
          { transmitterId := hop.1.2, receiverId := hop.2.2,
            corrections := ObservationSettings.lightTimeCorrectionsList
              (.base ObservableType.n_way_range lightTimeCorrections biasSettings) }),
          ?_, rfl, ?_, ?_⟩
        · unfold buildNWayRangeModelSize1
          rw [if_neg (by omega), if_neg hrecv, if_neg htrans, if_neg (by simp [hchain])]
          simp only [ObservationSettings.observableType, ObservationSettings.biasSettings,
            ObservationSettings.lightTimeCorrectionsList] at hbias ⊢
          rw [hbias, exceptOkBind]
        · rw [List.length_map, List.length_zip, List.length_tail]
          omega
        · intro c hc
          rcases List.mem_map.mp hc with ⟨hop, _, hceq⟩
          rw [← hceq]
    | oneWayDopplerSettings a b c d => simp [ObservationSettings.observableType] at htag
    | twoWayDopplerSettings a b c => simp [ObservationSettings.observableType] at htag
    | oneWayDifferencedRangeRateSettings a b c =>
        simp [ObservationSettings.observableType] at htag
    | nWayRangeSettings a b c => simp [ObservationSettings.isNWayRangeConcrete] at hconc
  · intro linkEnds observationSettings bodyMap htag hrecv
    rw [createSize1_dispatch_nway linkEnds observationSettings bodyMap htag]
    by_cases hlen : linkEnds.length < 2
    · refine ⟨"n way range model link ends count", ?_⟩
      unfold buildNWayRangeModelSize1
      rw [if_pos hlen]
    · refine ⟨"n way range model no receiver found", ?_⟩
      unfold buildNWayRangeModelSize1
      rw [if_neg hlen, if_pos hrecv]

/-- C4 witness: the first part applied to a four-link-end chain with plain
base settings carrying one correction settings object, and the second part
applied to a receiver-less map. -/
theorem n_way_range_witness :
    (∃ calculators,
      createObservationModelSize1
        [(transmitter, ("A", "")), (reflector1, ("B", "")),
         (reflector2, ("C", "")), (receiver, ("D", ""))]
        (ObservationSettings.base ObservableType.n_way_range [⟨7⟩] none) [] =
        Except.ok (ObservationModel1.nWayRange calculators none none) ∧
      calculators =
        (([(transmitter, ("A", "")), (reflector1, ("B", "")),
           (reflector2, ("C", "")), (receiver, ("D", ""))] : LinkEnds).zip
          ([(transmitter, ("A", "")), (reflector1, ("B", "")),
            (reflector2, ("C", "")), (receiver, ("D", ""))] : LinkEnds).tail).map
          (fun hop =>
            { transmitterId := hop.1.2, receiverId := hop.2.2,
              corrections := (ObservationSettings.base ObservableType.n_way_range
                [⟨7⟩] none).lightTimeCorrectionsList }) ∧
      calculators.length =
        ([(transmitter, ("A", "")), (reflector1, ("B", "")),
          (reflector2, ("C", "")), (receiver, ("D", ""))] : LinkEnds).length - 1 ∧
      ∀ c ∈ calculators,
        c.corrections = (ObservationSettings.base ObservableType.n_way_range
          [⟨7⟩] none).lightTimeCorrectionsList) ∧
    (∃ msg, createObservationModelSize1
        [(transmitter, ("A", "")), (reflector1, ("B", ""))]
        (ObservationSettings.base ObservableType.n_way_range [] none) [] =
        Except.error (.invalidLinkEndTopology msg)) :=
  ⟨n_way_range_hop_calculators_and_receiver_topology.1
      [(transmitter, ("A", "")), (reflector1, ("B", "")),
       (reflector2, ("C", "")), (receiver, ("D", ""))]
      (ObservationSettings.base ObservableType.n_way_range [⟨7⟩] none) [] none
      (by unfold LinkEnds.WF
          simp [transmitter, reflector1, reflector2, receiver, List.chain'_cons])
      rfl rfl (by decide) (by decide) (by decide) (by decide) rfl,
   n_way_range_hop_calculators_and_receiver_topology.2
      [(transmitter, ("A", "")), (reflector1, ("B", ""))]
      (ObservationSettings.base ObservableType.n_way_range [] none) [] rfl (by decide)⟩

/-- C9 counterexample.  The claim says that under its hypotheses (matching
concrete type, target link end present, central body with a gravity field) the
build fails with `Unsupported` exactly when the central body is the
transmitter or receiver link end, and otherwise succeeds.  At the input below
every hypothesis holds — target link end `transmitter` is present, central
body C has a gravity field, and C is not among the link ends — yet the build
neither succeeds nor reports `Unsupported`: `linkEnds.at( receiver )` at
createObservationModel.h line 529 throws `std::out_of_range` because the map
has no receiver entry. -/
theorem proper_time_calculator_missing_receiver_out_of_range :
    createOneWayDopplerProperTimeCalculator
      (some (DopplerProperTimeRateSettings.directFirstOrder "C"))
      [(transmitter, ("A", ""))]
      [("C", { gravityFieldModel := some GravityFieldKind.central })]
      transmitter = Except.error (.outOfRange "linkEnds key not found") := by
  decide

/-- C9 amended.  First part: when additionally the link ends contain both
transmitter and receiver entries, the direct-first-order proper-time-rate
build fails with `Unsupported` exactly when the central body (with empty
reference point) equals the transmitter or the receiver link end, and
otherwise succeeds with a calculator bound to the target link end and the
central body.  Second part: if the named central body exists but lacks a
gravity-field model, the build fails with a `MissingEnvironmentModel`
error. -/
theorem proper_time_calculator_reference_point_dichotomy :
    (∀ (centralBodyName : String) (linkEnds : LinkEnds) (bodyMap : NamedBodyMap)
        (body : Body) (linkEndForCalculator : LinkEndType)
        (transmitterId receiverId : LinkEndId),
        bodyMap.lookup centralBodyName = some body →
        body.gravityFieldModel ≠ none →
        linkEnds.countKey linkEndForCalculator ≠ 0 →
        linkEnds.lookup transmitter = some transmitterId →
        linkEnds.lookup receiver = some receiverId →
        (((∃ msg, createOneWayDopplerProperTimeCalculator
            (some (DopplerProperTimeRateSettings.directFirstOrder centralBodyName))
            linkEnds bodyMap linkEndForCalculator = Except.error (.unsupported msg)) ↔
          (receiverId = (centralBodyName, "") ∨ transmitterId = (centralBodyName, ""))) ∧
        (¬(receiverId = (centralBodyName, "") ∨ transmitterId = (centralBodyName, "")) →
          createOneWayDopplerProperTimeCalculator
            (some (DopplerProperTimeRateSettings.directFirstOrder centralBodyName))
            linkEnds bodyMap linkEndForCalculator =
            Except.ok { computationPointLinkEndType := linkEndForCalculator,
                        centralBody := centralBodyName }))) ∧
    (∀ (centralBodyName : String) (linkEnds : LinkEnds) (bodyMap : NamedBodyMap)
        (body : Body) (linkEndForCalculator : LinkEndType),
        bodyMap.lookup centralBodyName = some body →
        body.gravityFieldModel = none →
        linkEnds.countKey linkEndForCalculator ≠ 0 →
        ∃ msg, createOneWayDopplerProperTimeCalculator
          (some (DopplerProperTimeRateSettings.directFirstOrder centralBodyName))
          linkEnds bodyMap linkEndForCalculator =
          Except.error (.missingEnvironmentModel msg)) := by
  constructor
  · intro centralBodyName linkEnds bodyMap body linkEndForCalculator transmitterId
      receiverId hlookup hgrav htarget htrans hrecv
    have hred : createOneWayDopplerProperTimeCalculator
        (some (DopplerProperTimeRateSettings.directFirstOrder centralBodyName))
        linkEnds bodyMap linkEndForCalculator =
        (if receiverId = (centralBodyName, "") then
          Except.error (.unsupported
            "proper time reference point as link end not yet implemented")
        else if transmitterId = (centralBodyName, "") then
          Except.error (.unsupported
            "proper time reference point as link end not yet implemented")
        else Except.ok { computationPointLinkEndType := linkEndForCalculator,
                         centralBody := centralBodyName }) := by
      unfold createOneWayDopplerProperTimeCalculator
      simp only [DopplerProperTimeRateSettings.dopplerProperTimeRateType,
        if_neg htarget, hlookup, if_neg hgrav, hrecv, htrans]
    by_cases hR : receiverId = (centralBodyName, "")
    · constructor
      · simp [hred, hR]
      · intro hno
        exact absurd (Or.inl hR) hno
    · by_cases hT : transmitterId = (centralBodyName, "")
      · constructor
        · simp [hred, hR, hT]
        · intro hno
          exact absurd (Or.inr hT) hno
      · constructor
        · simp [hred, hR, hT]
        · intro _
          simp [hred, hR, hT]
  · intro centralBodyName linkEnds bodyMap body linkEndForCalculator hlookup hgrav htarget
    refine ⟨"no gravity field found for " ++ centralBodyName, ?_⟩
    unfold createOneWayDopplerProperTimeCalculator
    simp [DopplerProperTimeRateSettings.dopplerProperTimeRateType,
      if_neg htarget, hlookup, hgrav]

/-- C9 amended witness: the dichotomy applied at a concrete two-role link-ends
map whose central body is distinct from both link ends (success side), and the
missing-gravity part at a concrete body without a gravity field. -/
theorem proper_time_calculator_dichotomy_witness :
    createOneWayDopplerProperTimeCalculator
      (some (DopplerProperTimeRateSettings.directFirstOrder "C"))
      [(transmitter, ("A", "")), (receiver, ("B", ""))]
      [("C", { gravityFieldModel := some GravityFieldKind.central })]
      transmitter =
      Except.ok { computationPointLinkEndType := transmitter, centralBody := "C" } ∧
    (∃ msg, createOneWayDopplerProperTimeCalculator
      (some (DopplerProperTimeRateSettings.directFirstOrder "D"))
      [(transmitter, ("A", "")), (receiver, ("B", ""))]
      [("D", { ephemeris := true })] receiver =
      Except.error (.missingEnvironmentModel msg)) :=
  ⟨(proper_time_calculator_reference_point_dichotomy.1 "C"
      [(transmitter, ("A", "")), (receiver, ("B", ""))]
      [("C", { gravityFieldModel := some GravityFieldKind.central })]
      { gravityFieldModel := some GravityFieldKind.central }
      transmitter ("A", "") ("B", "")
      (by decide) (by decide) (by decide) (by decide) (by decide)).2 (by decide),
   proper_time_calculator_reference_point_dichotomy.2 "D"
      [(transmitter, ("A", "")), (receiver, ("B", ""))]
      [("D", { ephemeris := true })] { ephemeris := true } receiver
      (by decide) (by decide) (by decide)⟩

/-- Key-presence test on the inner link-ends-keyed map. -/
def bucketHasKey (m : List (LinkEnds × ObservationSettings)) (k : LinkEnds) : Bool :=
  m.any (fun q => decide (q.1 = k))

/-- Containment test on the nested map, mirroring the traversal of
`sortedSettingsMapInsert`. -/
def sortedMapContains : SortedObservationSettingsMap → ObservableType → LinkEnds → Bool
  | [], _, _ => false
  | p :: rest, t, k =>
      if p.1 = t then bucketHasKey p.2 k else sortedMapContains rest t k

/-- Inner insertion grows the bucket exactly when the key is new. -/
theorem linkEndsMapInsert_length (m : List (LinkEnds × ObservationSettings))
    (k : LinkEnds) (v : ObservationSettings) :
    (linkEndsMapInsert m k v).length =
      if bucketHasKey m k then m.length else m.length + 1 := by
  induction m with
  | nil => simp [linkEndsMapInsert, bucketHasKey]
  | cons p rest ih =>
      by_cases hp : p.1 = k
      · simp [linkEndsMapInsert, bucketHasKey, hp]
      · simp only [linkEndsMapInsert, if_neg hp, List.length_cons, ih]
        have hhead : bucketHasKey (p :: rest) k = bucketHasKey rest k := by
          simp [bucketHasKey, hp]
        rw [hhead]
        by_cases h2 : bucketHasKey rest k <;> simp [h2]

/-- Key presence after inner insertion. -/
theorem linkEndsMapInsert_hasKey (m : List (LinkEnds × ObservationSettings))
    (k1 : LinkEnds) (v : ObservationSettings) (k : LinkEnds) :
    bucketHasKey (linkEndsMapInsert m k1 v) k =
      (bucketHasKey m k || decide (k = k1)) := by
  induction m with
  | nil =>
      by_cases h : k = k1 <;> simp [linkEndsMapInsert, bucketHasKey, h, eq_comm]
  | cons p rest ih =>
      by_cases hp : p.1 = k1
      · by_cases h : k = k1
        · subst h
          simp [linkEndsMapInsert, bucketHasKey, hp]
        · have hpk : ¬ p.1 = k := fun hh => h (hp.symm.trans hh).symm
          have hk1k : ¬ k1 = k := fun hh => h hh.symm
          simp only [linkEndsMapInsert, if_pos hp]
          simp [bucketHasKey, hk1k, hpk, h]
      · simp only [linkEndsMapInsert, if_neg hp, bucketHasKey, List.any_cons] at ih ⊢
        rw [ih, Bool.or_assoc]

/-- Entry count after outer insertion: unchanged when the (type, link-ends)
pair is present, one more when it is new. -/
theorem sortedSettingsMapInsert_totalEntries (m : SortedObservationSettingsMap)
    (t : ObservableType) (k : LinkEnds) (v : ObservationSettings) :
    SortedObservationSettingsMap.totalEntries (sortedSettingsMapInsert m t k v) =
      SortedObservationSettingsMap.totalEntries m +
        (if sortedMapContains m t k then 0 else 1) := by
  induction m with
  | nil => simp [sortedSettingsMapInsert, sortedMapContains,
      SortedObservationSettingsMap.totalEntries]
  | cons p rest ih =>
      by_cases hp : p.1 = t
      · simp only [sortedSettingsMapInsert, if_pos hp, sortedMapContains,
          SortedObservationSettingsMap.totalEntries, List.map_cons, List.sum_cons]
        rw [linkEndsMapInsert_length]
        by_cases hk : bucketHasKey p.2 k
        · simp [hk]
        · simp [hk]
          omega
      · simp only [sortedSettingsMapInsert, if_neg hp, sortedMapContains,
          SortedObservationSettingsMap.totalEntries, List.map_cons, List.sum_cons]
        rw [show ((sortedSettingsMapInsert rest t k v).map (fun p => p.2.length)).sum =
          SortedObservationSettingsMap.totalEntries (sortedSettingsMapInsert rest t k v)
          from rfl, ih]
        rw [show (rest.map (fun p => p.2.length)).sum =
          SortedObservationSettingsMap.totalEntries rest from rfl]
        omega

/-- Containment after outer insertion. -/
theorem sortedSettingsMapInsert_contains (m : SortedObservationSettingsMap)
    (t1 : ObservableType) (k1 : LinkEnds) (v : ObservationSettings)
    (t : ObservableType) (k : LinkEnds) :
    sortedMapContains (sortedSettingsMapInsert m t1 k1 v) t k =
      (sortedMapContains m t k || (decide (t = t1) && decide (k = k1))) := by
  induction m with
  | nil =>
      by_cases ht : t1 = t
      · subst ht
        by_cases hk : k = k1 <;>
          simp [sortedSettingsMapInsert, sortedMapContains, bucketHasKey, hk, eq_comm]
      · have ht2 : ¬ t = t1 := fun hh => ht hh.symm
        simp [sortedSettingsMapInsert, sortedMapContains, ht, ht2]
  | cons p rest ih =>
      by_cases hp : p.1 = t1
      · by_cases ht : p.1 = t
        · have htt1 : t1 = t := hp.symm.trans ht
          simp only [sortedSettingsMapInsert, if_pos hp, sortedMapContains,
            if_pos htt1, if_pos ht]
          rw [linkEndsMapInsert_hasKey]
          simp [htt1.symm]
        · have htt1 : ¬ t1 = t := fun hh => ht (hp.trans hh)
          have ht1 : ¬ t = t1 := fun hh => htt1 hh.symm
          simp only [sortedSettingsMapInsert, if_pos hp, sortedMapContains,
            if_neg htt1, if_neg ht]
          simp [ht1]
      · by_cases ht : p.1 = t
        · have ht1 : ¬ t = t1 := fun hh => hp (ht.trans hh)
          simp only [sortedSettingsMapInsert, if_neg hp, sortedMapContains, if_pos ht]
          simp [ht1]
        · simp only [sortedSettingsMapInsert, if_neg hp, sortedMapContains, if_neg ht]
          exact ih

/-- The regrouping fold preserves the entry count as long as every
(observable type, link ends) pair of the remaining input is fresh. -/
theorem convert_fold_totalEntries (input : ObservationSettingsListMap) :
    ∀ acc : SortedObservationSettingsMap,
      (input.map (fun e => (e.2.observableType, e.1))).Nodup →
      (∀ e ∈ input, sortedMapContains acc e.2.observableType e.1 = false) →
      SortedObservationSettingsMap.totalEntries
        (input.foldl (fun sorted entry =>
          sortedSettingsMapInsert sorted entry.2.observableType entry.1 entry.2) acc) =
        SortedObservationSettingsMap.totalEntries acc + input.length := by
  induction input with
  | nil =>
      intro acc _ _
      simp
  | cons e rest ih =>
      intro acc hnodup hfresh
      rw [List.map_cons, List.nodup_cons] at hnodup
      rw [List.foldl_cons]
      rw [ih (sortedSettingsMapInsert acc e.2.observableType e.1 e.2) hnodup.2 ?_]
      · rw [sortedSettingsMapInsert_totalEntries,
          hfresh e (List.mem_cons_self e rest)]
        simp [List.length_cons]
        omega
      · intro e2 he2
        rw [sortedSettingsMapInsert_contains,
          hfresh e2 (List.mem_cons_of_mem e he2)]
        have hne : (e2.2.observableType, e2.1) ≠ (e.2.observableType, e.1) := by
          intro heq
          exact hnodup.1 (heq ▸ List.mem_map.mpr ⟨e2, he2, rfl⟩)
        by_cases h1 : e2.2.observableType = e.2.observableType
        · by_cases h2 : e2.1 = e.1
          · exact absurd (Prod.ext h1 h2) hne
          · simp [h1, h2]
        · simp [h1]

/-- Membership in a bucket after inner insertion. -/
theorem linkEndsMapInsert_mem (m : List (LinkEnds × ObservationSettings))
    (k : LinkEnds) (v : ObservationSettings) (q : LinkEnds × ObservationSettings)
    (hq : q ∈ linkEndsMapInsert m k v) : q ∈ m ∨ q = (k, v) := by
  induction m with
  | nil =>
      simp [linkEndsMapInsert] at hq
      exact Or.inr hq
  | cons p rest ih =>
      by_cases hp : p.1 = k
      · simp only [linkEndsMapInsert, if_pos hp] at hq
        rcases List.mem_cons.mp hq with hq1 | hq2
        · exact Or.inr hq1
        · exact Or.inl (List.mem_cons_of_mem p hq2)
      · simp only [linkEndsMapInsert, if_neg hp] at hq
        rcases List.mem_cons.mp hq with hq1 | hq2
        · exact Or.inl (hq1 ▸ List.mem_cons_self p rest)
        · rcases ih hq2 with h | h
          · exact Or.inl (List.mem_cons_of_mem p h)
          · exact Or.inr h

/-- Outer insertion of an entry under its own observable type preserves the
bucket typing invariant. -/
theorem sortedSettingsMapInsert_wellTyped (m : SortedObservationSettingsMap)
    (t : ObservableType) (k : LinkEnds) (v : ObservationSettings)
    (hv : v.observableType = t)
    (hm : ∀ p ∈ m, ∀ q ∈ p.2, q.2.observableType = p.1) :
    ∀ p ∈ sortedSettingsMapInsert m t k v, ∀ q ∈ p.2, q.2.observableType = p.1 := by
  induction m with
  | nil =>
      intro p hp q hq
      simp [sortedSettingsMapInsert] at hp
      subst hp
      simp at hq
      subst hq
      exact hv
  | cons p0 rest ih =>
      intro p hp q hq
      by_cases hp0 : p0.1 = t
      · simp only [sortedSettingsMapInsert, if_pos hp0] at hp
        rcases List.mem_cons.mp hp with hp1 | hp2
        · subst hp1
          rcases linkEndsMapInsert_mem p0.2 k v q hq with h | h
          · rw [← hp0]
            exact hm p0 (List.mem_cons_self p0 rest) q h
          · rw [h]
            exact hv
        · exact hm p (List.mem_cons_of_mem p0 hp2) q hq
      · simp only [sortedSettingsMapInsert, if_neg hp0] at hp
        rcases List.mem_cons.mp hp with hp1 | hp2
        · exact hm p (hp1 ▸ List.mem_cons_self p0 rest) q hq
        · exact ih (fun p2 hp2b => hm p2 (List.mem_cons_of_mem p0 hp2b)) p hp2 q hq

/-- The regrouping fold preserves the bucket typing invariant. -/
theorem convert_fold_wellTyped (input : ObservationSettingsListMap) :
    ∀ acc : SortedObservationSettingsMap,
      (∀ p ∈ acc, ∀ q ∈ p.2, q.2.observableType = p.1) →
      ∀ p ∈ (input.foldl (fun sorted entry =>
          sortedSettingsMapInsert sorted entry.2.observableType entry.1 entry.2) acc),
        ∀ q ∈ p.2, q.2.observableType = p.1 := by
  induction input with
  | nil =>
      intro acc hacc
      simpa using hacc
  | cons e rest ih =>
      intro acc hacc
      rw [List.foldl_cons]
      exact ih _ (sortedSettingsMapInsert_wellTyped acc e.2.observableType e.1 e.2 rfl hacc)

/-- C3 counterexample.  The claim says the regrouping preserves the total
entry count for every unsorted multimap, in which several settings may share
the same link ends; for two one-way-range settings objects sharing one
link-ends key, the declared map-of-maps result type can hold only one entry
under (one-way-range, that key), so one of the two entries is dropped. -/
theorem convert_unsorted_collision_drops_entry :
    SortedObservationSettingsMap.totalEntries
      (convertUnsortedToSortedObservationSettingsMap
        [([(transmitter, ("A", "")), (receiver, ("B", ""))],
          ObservationSettings.base ObservableType.one_way_range [⟨0⟩] none),
         ([(transmitter, ("A", "")), (receiver, ("B", ""))],
          ObservationSettings.base ObservableType.one_way_range [⟨1⟩] none)]) = 1 ∧
    ([([(transmitter, ("A", "")), (receiver, ("B", ""))],
        ObservationSettings.base ObservableType.one_way_range [⟨0⟩] none),
      ([(transmitter, ("A", "")), (receiver, ("B", ""))],
        ObservationSettings.base ObservableType.one_way_range [⟨1⟩] none)] :
      ObservationSettingsListMap).length = 2 :=
  ⟨rfl, rfl⟩

/-- C3 amended.  First part: the regrouping preserves the total entry count
whenever no two input entries share both their settings' observable type and
their link ends (colliding entries are collapsed by the map-of-maps result
type).  Second part: unconditionally, every entry of the result sits in the
bucket keyed by its own settings' declared observable type.  The function is a
pure fold over its input, so it has no side effects. -/
theorem convert_unsorted_preserves_entries_and_buckets :
    (∀ input : ObservationSettingsListMap,
      (input.map (fun e => (e.2.observableType, e.1))).Nodup →
      SortedObservationSettingsMap.totalEntries
        (convertUnsortedToSortedObservationSettingsMap input) = input.length) ∧
    (∀ (input : ObservationSettingsListMap)
        (p : ObservableType × List (LinkEnds × ObservationSettings))
        (q : LinkEnds × ObservationSettings),
      p ∈ convertUnsortedToSortedObservationSettingsMap input → q ∈ p.2 →
      q.2.observableType = p.1) := by
  constructor
  · intro input hnodup
    unfold convertUnsortedToSortedObservationSettingsMap
    rw [convert_fold_totalEntries input [] hnodup (fun e _ => rfl)]
    simp [SortedObservationSettingsMap.totalEntries]
  · intro input p q hp hq
    exact convert_fold_wellTyped input [] (by simp) p hp q hq

/-- C3 amended witness: count preservation at a concrete two-entry input with
distinct observable types, and bucket typing at its result. -/
theorem convert_unsorted_amended_witness :
    SortedObservationSettingsMap.totalEntries
      (convertUnsortedToSortedObservationSettingsMap
        [([(transmitter, ("A", "")), (receiver, ("B", ""))],
          ObservationSettings.base ObservableType.one_way_range [] none),
         ([(transmitter, ("A", "")), (receiver, ("B", ""))],
          ObservationSettings.base ObservableType.one_way_doppler [] none)]) =
      ([([(transmitter, ("A", "")), (receiver, ("B", ""))],
          ObservationSettings.base ObservableType.one_way_range [] none),
        ([(transmitter, ("A", "")), (receiver, ("B", ""))],
          ObservationSettings.base ObservableType.one_way_doppler [] none)] :
        ObservationSettingsListMap).length :=
  convert_unsorted_preserves_entries_and_buckets.1
    [([(transmitter, ("A", "")), (receiver, ("B", ""))],
      ObservationSettings.base ObservableType.one_way_range [] none),
     ([(transmitter, ("A", "")), (receiver, ("B", ""))],
      ObservationSettings.base ObservableType.one_way_doppler [] none)]
    (by simp [ObservationSettings.observableType])

end Tudat
